import Mathlib

/-
  Verification development for the Q5-sentinel vulnerability-prioritization
  engine (src/motor).  The Python source is shallowly embedded over ℚ:
  Python floats are modelled as exact rationals, Python dicts with string
  keys as association lists, and Python object identity (used only as the
  last-resort deduplication key) as the record's position in the input
  list.  Every definition is translated from the source files named in its
  doc comment; `math.log10` and `math.sqrt` (the only transcendental
  functions in the source) are threaded through as explicit function
  parameters `log10f` / `sqrtf` so that all definitions stay computable.

  Rational arithmetic is written with the kernel-computable wrappers
  `pyAdd`, `pySub`, `pyMul`, `pyDiv`, `pyNeg`, `pyAbs` (mkRat-based) which
  are proved equal to the field operations of ℚ; this keeps concrete
  evaluation by `decide` possible (the library's `Rat.add` etc. are sealed).
-/

set_option maxRecDepth 4000

/-! ### Rational arithmetic (computable mirrors of the ℚ field operations) -/

/-- `a + b` on ℚ, via `mkRat` so that the kernel can evaluate it. -/
def pyAdd (a b : ℚ) : ℚ := mkRat (a.num * b.den + b.num * a.den) (a.den * b.den)

/-- `a - b` on ℚ, via `mkRat`. -/
def pySub (a b : ℚ) : ℚ := mkRat (a.num * b.den - b.num * a.den) (a.den * b.den)

/-- `a * b` on ℚ, via `mkRat`. -/
def pyMul (a b : ℚ) : ℚ := mkRat (a.num * b.num) (a.den * b.den)

/-- `-a` on ℚ, via `mkRat`. -/
def pyNeg (a : ℚ) : ℚ := mkRat (-a.num) a.den

/-- `a / b` on ℚ (0 when `b = 0`, as in Mathlib), via `mkRat`. -/
def pyDiv (a b : ℚ) : ℚ :=
  if 0 ≤ b.num then mkRat (a.num * b.den) (a.den * b.num.toNat)
  else mkRat (-(a.num * b.den)) (a.den * (-b.num).toNat)

/-- `abs a` on ℚ. -/
def pyAbs (a : ℚ) : ℚ := if a < 0 then pyNeg a else a

/-- Truncation toward zero, Python's `int(float)`. -/
def ratTrunc (q : ℚ) : ℤ :=
  if 0 ≤ q.num then ((q.num.toNat / q.den : ℕ) : ℤ)
  else -(((-q.num).toNat / q.den : ℕ) : ℤ)

/-- Floor of a rational as an integer (computable). -/
def ratFloorZ (q : ℚ) : ℤ :=
  if 0 ≤ q.num then ((q.num.toNat / q.den : ℕ) : ℤ)
  else -((((-q.num).toNat + q.den - 1) / q.den : ℕ) : ℤ)

/-- Python's `round(x)`: round-half-to-even (banker's rounding). -/
def halfEvenRound (q : ℚ) : ℤ :=
  let f := ratFloorZ q
  let frac := pySub q (mkRat f 1)
  if frac < mkRat 1 2 then f
  else if mkRat 1 2 < frac then f + 1
  else if f % 2 = 0 then f else f + 1

/-- Python's `round(x, 2)` used by the funnel to group equal scores. -/
def round2 (q : ℚ) : ℚ := pyDiv (mkRat (halfEvenRound (pyMul q 100)) 1) 100

/-! ### Python string operations (over the underlying character lists) -/

/-- Python `s.lower()` (ASCII case folding, as `Char.toLower`). -/
def strLower (s : String) : String := ⟨s.data.map Char.toLower⟩

/-- Python `s.upper()`. -/
def strUpper (s : String) : String := ⟨s.data.map Char.toUpper⟩

/-- Python `s.strip()`. -/
def strStrip (s : String) : String :=
  ⟨((s.data.dropWhile Char.isWhitespace).reverse.dropWhile Char.isWhitespace).reverse⟩

/-- `pat in hay` for character lists (substring containment). -/
def listContainsSub (hay pat : List Char) : Bool :=
  (List.range (hay.length + 1)).any (fun i => pat.isPrefixOf (hay.drop i))

/-- Python `pat in hay` on strings. -/
def strContainsSub (hay pat : String) : Bool := listContainsSub hay.data pat.data

/-- Fuelled scan counting non-overlapping occurrences of a separator,
left to right (structural recursion on the fuel so that the kernel can
evaluate it; `hay.length` fuel always suffices for a non-empty separator). -/
def sepCountFuel : ℕ → List Char → List Char → ℕ
  | 0, _, _ => 0
  | fuel + 1, hay, sep =>
    match hay with
    | [] => 0
    | _ :: rest =>
      if sep.isPrefixOf hay then 1 + sepCountFuel fuel (hay.drop sep.length) sep
      else sepCountFuel fuel rest sep

/-- Number of non-overlapping occurrences of a (non-empty) separator in
`hay`, scanning left to right; `len(s.split(sep)) = sepCount hay sep + 1`.
(The source only ever splits on `","`, `";"` and `"\n"`.) -/
def sepCount (hay sep : List Char) : ℕ := sepCountFuel hay.length hay sep

/-- `len(s.split(sep))` on strings (Python `str.split` with explicit separator). -/
def sepCountStr (s sep : String) : ℕ := sepCount s.data sep.data

/-- Python `s.isdigit()` (ASCII digits). -/
def strIsDigit (s : String) : Bool := !s.data.isEmpty && s.data.all Char.isDigit

/-- State machine collecting the maximal digit runs of a character list:
`run` is the current (reversed) run of digits. -/
def digitRunsGo : List Char → List Char → List String
  | run, [] => if run.isEmpty then [] else [⟨run.reverse⟩]
  | run, c :: cs =>
    if c.isDigit then digitRunsGo (c :: run) cs
    else if run.isEmpty then digitRunsGo [] cs
    else ⟨run.reverse⟩ :: digitRunsGo [] cs

/-- `re.findall(r'\d+', s)`: the maximal runs of digits in `s`, in order. -/
def digitRuns (s : String) : List String := digitRunsGo [] s.data

/-- One attempted match of the pattern `CVE-\d{4}-\d{4,7}` (case-insensitive,
greedy tail of 4..7 digits) anchored at the start of the character list,
uppercased on success.  From `q1_calculator._CVE_RE`. -/
def cveMatchAt : List Char → Option String
  | a :: b :: c :: d :: rest =>
    if a.toLower == 'c' && b.toLower == 'v' && c.toLower == 'e' && d == '-' then
      match rest with
      | y1 :: y2 :: y3 :: y4 :: h :: tl =>
        if y1.isDigit && y2.isDigit && y3.isDigit && y4.isDigit && h == '-' then
          let ds := tl.takeWhile Char.isDigit
          if 4 ≤ ds.length then
            some ⟨'C' :: 'V' :: 'E' :: '-' :: y1 :: y2 :: y3 :: y4 :: '-' :: ds.take 7⟩
          else none
        else none
      | _ => none
    else none
  | _ => none

/-- Leftmost match of the CVE pattern (Python `re.search`). -/
def cveSearch : List Char → String
  | [] => ""
  | l@(_ :: rest) =>
    match cveMatchAt l with
    | some m => m
    | none => cveSearch rest

/-- `q1_calculator.extract_cve_id`: normalized CVE id from any string, else `""`. -/
def extract_cve_id (s : String) : String := cveSearch s.data

/-! ### Data model

`VulnData` is the typed shape of the open `vuln_data` dictionary, at the
granularity at which the source reads it: free-text fields are strings
(`""` = absent), fields parsed with a `safe_float`-style helper are
`Option ℚ` (`none` = absent / "NaN" / unparseable), boolean flags are
`Bool` (`true` iff the Python value is `True` or the string `'true'`),
`criticality` is the result of the source's `int()` parse, and
`effort_for_fixing` distinguishes float-parsable values from other text.
The fields `q1_exploitability` … `q4_fixability` and `is_runtime` model the
values that `calculate_rpi` writes into `vuln_data` before calling Q5. -/

/-- A value of the `effort_for_fixing` field: a number (anything Python's
`float()` accepts) or a non-numeric string. -/
inductive EffortVal
  | num (q : ℚ)
  | str (s : String)
deriving DecidableEq

structure VulnData where
  vulnerability_ids : String := ""
  title : String := ""
  component_name : String := ""
  component_version : String := ""
  service : String := ""
  file_path : String := ""
  test : String := ""
  product : String := ""
  url : String := ""
  endpoints : String := ""
  engagement : String := ""
  environment : String := ""
  description : String := ""
  mitigation : String := ""
  cwe : String := ""
  severity : String := ""
  numerical_severity : String := ""
  hash_code : String := ""
  id_field : String := ""
  unique_id_from_tool : Option String := none
  sla_deadline : Option String := none
  cvssv3_score : Option ℚ := none
  nb_occurences : Option ℚ := none
  scanner_confidence : Option ℚ := none
  sla_days_remaining : Option ℚ := none
  sla_age : Option ℚ := none
  criticality : Option ℤ := none
  effort_for_fixing : Option EffortVal := none
  epss_score : Option ℚ := none
  epss_percentile : Option ℚ := none
  has_poc_field : Bool := false
  verified : Bool := false
  dynamic_finding : Bool := false
  static_finding : Bool := false
  violates_sla : Bool := false
  risk_accepted : Bool := false
  is_mitigated : Bool := false
  false_p : Bool := false
  has_jira_issue : Bool := false
  q1_exploitability : Option ℚ := none
  q2_exposure : Option ℚ := none
  q3_impact : Option ℚ := none
  q4_fixability : Option ℚ := none
  is_runtime : Option Bool := none
deriving DecidableEq

/-- One KEV catalog entry as stored by `ExternalDataFetcher.fetch_kev_catalog`.
`date_added_recent` models the check `(datetime.utcnow() - parse(date_added))
<= timedelta(days=60)` from `q5_calculator._threat_block` (false when the
date string does not parse). -/
structure KevInfo where
  known_ransomware : Bool := false
  date_added_recent : Bool := false
deriving DecidableEq

/-- One EPSS entry as stored by `ExternalDataFetcher.fetch_epss_scores`. -/
structure EpssInfo where
  epss : ℚ := 0
  percentile : ℚ := 0
deriving DecidableEq

/-- The exploit-reference flags extracted from NVD 2.0 references by
`ExternalDataFetcher._nvd_references` (network result, one per CVE). -/
structure NvdRefs where
  has_exploit_ref : Bool := false
  has_exploitdb : Bool := false
  has_metasploit : Bool := false
  has_packetstorm : Bool := false
  has_github : Bool := false
  has_nuclei : Bool := false
deriving DecidableEq

/-- `q1_calculator.ExternalDataFetcher` after its batch prefetch: the KEV and
EPSS caches are dicts keyed by normalized CVE id (association lists here);
`nvd_refs` is the per-CVE network lookup backing `check_poc_availability`. -/
structure ExternalDataFetcher where
  kev_data : List (String × KevInfo) := []
  epss_data : List (String × EpssInfo) := []
  nvd_refs : String → NvdRefs := fun _ => {}

/-- Dict lookup in the KEV cache. -/
def lookupKev (f : ExternalDataFetcher) (k : String) : Option KevInfo :=
  (f.kev_data.find? (fun p => p.1 == k)).map (fun p => p.2)

/-- Dict lookup in the EPSS cache. -/
def lookupEpss (f : ExternalDataFetcher) (k : String) : Option EpssInfo :=
  (f.epss_data.find? (fun p => p.1 == k)).map (fun p => p.2)

/-- `models.VulnerabilityMetrics`, restricted to the fields the engine
reads downstream. -/
structure VulnerabilityMetrics where
  q1_exploitability : ℚ := 0
  q2_exposure : ℚ := 0
  q3_impact : ℚ := 0
  q4_fixability : ℚ := 0
  q5_urgency : ℚ := 0
  rpi_score : ℚ := 0
  domain : String := ""
  is_runtime : Bool := false
  has_kev : Bool := false
  has_poc : Bool := false
  epss_score : ℚ := 0
  epss_percentile : ℚ := 0
deriving DecidableEq

/-- `models.ProcessingConfig` (the second, effective dataclass definition in
`models.py`), together with the funnel/MCDM fields that
`VulnerabilityPrioritizer._ensure_config_defaults` patches in. -/
structure ProcessingConfig where
  w_q1 : ℚ := mkRat 30 100
  w_q2 : ℚ := mkRat 20 100
  w_q3 : ℚ := mkRat 25 100
  w_q4 : ℚ := mkRat 10 100
  w_q5 : ℚ := mkRat 15 100
  funnel_enabled : Bool := true
  top_k_for_funnel : ℕ := 1000
  funnel_threshold : ℕ := 50
  funnel_equal_epsilon : ℚ := mkRat 1 10000
  mcdm_use_topsis : Bool := true
  mw_q1 : ℚ := mkRat 22 100
  mw_q2 : ℚ := mkRat 18 100
  mw_q3 : ℚ := mkRat 26 100
  mw_q5 : ℚ := mkRat 14 100
  mw_epss : ℚ := mkRat 8 100
  mw_occ : ℚ := mkRat 6 100
  mw_conf : ℚ := mkRat 4 100
  mw_effort : ℚ := mkRat 2 100
deriving DecidableEq

/-- Sum of the five configured 5Q weights. -/
def ProcessingConfig.weights_total (c : ProcessingConfig) : ℚ :=
  pyAdd (pyAdd (pyAdd (pyAdd c.w_q1 c.w_q2) c.w_q3) c.w_q4) c.w_q5

/-- `models.ProcessingConfig.validate`: `true` iff the weights pass the check
`abs(sum(weights) - 1.0) > 0.01 → raise ValueError`.  NOTE: no caller in the
source ever invokes `validate`; see the C6 analysis. -/
def ProcessingConfig.validateOk (c : ProcessingConfig) : Bool :=
  !(mkRat 1 100 < pyAbs (pySub c.weights_total 1))

/-! ### Q1: exploitability (`q1_calculator.py`) -/

/-- Result of `ExternalDataFetcher.check_poc_availability` (the fields the
engine reads). -/
structure PocInfo where
  has_poc : Bool := false
  poc_maturity : ℚ := 0
  weaponized : Bool := false
deriving DecidableEq

/-- `ExternalDataFetcher.check_poc_availability`: PoC availability and
maturity derived from the NVD reference flags plus the KEV ransomware boost.
The source's "recency adjustment" branch reads `out['last_seen']`, which is
never assigned before that point (the default is `None` and no code sets
it), so that branch is statically dead and omitted here. -/
def check_poc_availability (f : ExternalDataFetcher) (cve_id : String) : PocInfo :=
  let cve := extract_cve_id cve_id
  if cve = "" then {}
  else
    let nvd := f.nvd_refs cve
    let m1 : ℚ := if nvd.has_exploit_ref then max 0 70 else 0
    let hp1 := nvd.has_exploit_ref
    let m2 := if nvd.has_exploitdb then max m1 90 else m1
    let hp2 := hp1 || nvd.has_exploitdb
    let w2 := nvd.has_exploitdb
    let m3 := if nvd.has_metasploit then max m2 100 else m2
    let hp3 := hp2 || nvd.has_metasploit
    let w3 := w2 || nvd.has_metasploit
    let m4 := if nvd.has_nuclei then max m3 55 else m3
    let hp4 := hp3 || nvd.has_nuclei
    let m5 := match lookupKev f cve with
      | some k => if k.known_ransomware then min 100 (max m4 95) else m4
      | none => m4
    { has_poc := hp4, poc_maturity := m5, weaponized := w3 }

/-- Dev/test path markers used inline by `calculate_q1_exploitability`. -/
def q1_dev_markers : List String :=
  ["test/", "tests/", "spec/", "mock/", "dev-dependencies", "devdependencies",
   "example/", "sample/", "-test"]

/-- Runtime-artifact path markers used inline by `calculate_q1_exploitability`. -/
def q1_runtime_markers : List String :=
  ["boot-inf/lib", "web-inf/lib", "/lib/", ".jar", ".war", "node_modules",
   "vendor/", "site-packages", "requirements.txt"]

/-- Well-known runtime platform markers (`+10` bonus). -/
def q1_platform_markers : List String :=
  ["spring", "tomcat", "nginx", "apache", "postgres", "mysql", "redis",
   "elastic", "solr"]

/-- Critical-exploit CWE ids from `calculate_q1_exploitability._class_weight`. -/
def cwe_critical_ids : List String :=
  ["78", "77", "94", "502", "74", "89", "564", "918", "287", "306", "862",
   "863", "22", "23", "35", "611", "827"]

/-- Medium CWE ids (XSS/CSRF). -/
def cwe_medium_ids : List String := ["79", "80", "352"]

/-- Low CWE ids (info/DoS). -/
def cwe_low_ids : List String := ["200", "209", "532", "400", "770"]

/-- `_class_weight` from `calculate_q1_exploitability`. -/
def q1_class_weight (ids : List String) : ℚ :=
  if ids.any (fun i => cwe_critical_ids.contains i) then 90
  else if ids.any (fun i => cwe_medium_ids.contains i) then 60
  else if ids.any (fun i => cwe_low_ids.contains i) then 40
  else 50

/-- The `env_fit` computation of `calculate_q1_exploitability`. -/
def q1_env_fit (v : VulnData) : ℚ :=
  let file_path := strLower v.file_path
  let is_dev := q1_dev_markers.any (fun x => strContainsSub file_path x)
  let is_runtime := !is_dev && q1_runtime_markers.any (fun x => strContainsSub file_path x)
  let env_fit0 : ℚ := if is_runtime then 80 else 30
  let domain_text := strLower (v.component_name ++ " " ++ v.service)
  let domain_bonus : ℚ :=
    if q1_platform_markers.any (fun x => strContainsSub domain_text x) then 10 else 0
  min 100 (pyAdd env_fit0 domain_bonus)

/-- The EPSS score that Q1 reads: `epss_data.get(extract_cve_id(ids), {}).get('epss', 0)`. -/
def q1_epss_score (f : ExternalDataFetcher) (v : VulnData) : ℚ :=
  ((lookupEpss f (extract_cve_id v.vulnerability_ids)).map (fun e => e.epss)).getD 0

/-- The EPSS percentile that Q1 reads. -/
def q1_epss_percentile (f : ExternalDataFetcher) (v : VulnData) : ℚ :=
  ((lookupEpss f (extract_cve_id v.vulnerability_ids)).map (fun e => e.percentile)).getD 0

/-- `q1_calculator.calculate_q1_exploitability`:
`q1 = 0.5*poc_maturity + 0.3*env_fit + 0.2*class_weight`, plus the EPSS bonus
`20*epss + 0.1*percentile` only when the raw EPSS score is strictly positive,
capped at 100. -/
def calculate_q1_exploitability (f : ExternalDataFetcher) (v : VulnData) : ℚ :=
  let cve := extract_cve_id v.vulnerability_ids
  let poc := check_poc_availability f cve
  let poc_maturity := poc.poc_maturity
  let env_fit := q1_env_fit v
  let class_weight := q1_class_weight (digitRuns v.cwe)
  let q1 := pyAdd (pyAdd (pyMul (mkRat 5 10) poc_maturity) (pyMul (mkRat 3 10) env_fit))
      (pyMul (mkRat 2 10) class_weight)
  let epss_score := q1_epss_score f v
  let epss_percentile := q1_epss_percentile f v
  let q1' := if 0 < epss_score then
      pyAdd q1 (pyAdd (pyMul 20 epss_score) (pyMul (mkRat 1 10) epss_percentile))
    else q1
  min 100 q1'

/-! ### Domain / runtime classifier (`q2_calculator.VulnerabilityClassifier`,
duplicated verbatim in `q3_calculator` and `q4_calculator`) -/

/-- `VulnerabilityClassifier.DOMAIN_PATTERNS`, in dict insertion order.  All
patterns are literal substrings (the only regex metacharacter used is the
escaped dot in `asp\.net`). -/
def DOMAIN_PATTERNS : List (String × List String) :=
  [("web_api", ["spring", "struts", "tomcat", "jetty", "express", "fastapi",
                "django", "flask", "rails", "asp.net", "nginx", "apache"]),
   ("backend", ["java", "python", "node", "dotnet", "golang", "rust",
                "spring-security", "auth", "jwt", "oauth"]),
   ("database", ["mysql", "postgres", "oracle", "mongodb", "redis", "elastic",
                 "jdbc", "odbc", "hibernate", "sqlalchemy"]),
   ("search_index", ["solr", "elastic", "lucene", "sphinx", "algolia"]),
   ("messaging", ["kafka", "rabbitmq", "activemq", "redis", "zeromq", "nats"]),
   ("infrastructure", ["docker", "kubernetes", "terraform", "ansible", "aws", "azure"]),
   ("frontend", ["react", "vue", "angular", "jquery", "bootstrap", "webpack",
                 "babel", "postcss", "sass", "less"]),
   ("build_tools", ["maven", "gradle", "npm", "yarn", "webpack", "rollup", "vite"]),
   ("big_data", ["hadoop", "spark", "hive", "presto", "flink", "storm"])]

/-- `VulnerabilityClassifier.classify_domain`: first domain (in pattern-table
order) with a pattern matching the component name, file path or service;
otherwise the `test`-field fallbacks; otherwise `"general"`. -/
def classify_domain (v : VulnData) : String :=
  let component := strLower v.component_name
  let file_path := strLower v.file_path
  let service := strLower v.service
  let tst := strLower v.test
  match DOMAIN_PATTERNS.find? (fun dp => dp.2.any (fun p =>
      strContainsSub component p || strContainsSub file_path p || strContainsSub service p)) with
  | some dp => dp.1
  | none =>
    if strContainsSub tst "dependency" then
      (if strContainsSub tst "frontend" then "frontend" else "backend")
    else if strContainsSub tst "sast" then "backend"
    else if strContainsSub tst "infrastructure" || strContainsSub tst "prowler" then
      "infrastructure"
    else "general"

/-- Runtime path markers of `VulnerabilityClassifier.is_runtime_dependency`. -/
def q2_runtime_indicators : List String :=
  ["boot-inf/lib", "web-inf/lib", "/lib/", ".jar", ".war", "node_modules",
   "vendor/", "site-packages", "requirements.txt"]

/-- Dev path markers of `VulnerabilityClassifier.is_runtime_dependency`
(note the extra `"test-"` compared with the inline list in Q1). -/
def q2_dev_indicators : List String :=
  ["test/", "tests/", "spec/", "mock/", "dev-dependencies", "devdependencies",
   "test-", "-test", "example/", "sample/"]

/-- `VulnerabilityClassifier.is_runtime_dependency`: dev markers win, then
runtime markers, defaulting to `true` (the last two branches both return
`true`, kept separate to mirror the source). -/
def is_runtime_dependency (v : VulnData) : Bool :=
  let file_path := strLower v.file_path
  if q2_dev_indicators.any (fun x => strContainsSub file_path x) then false
  else if q2_runtime_indicators.any (fun x => strContainsSub file_path x) then true
  else true

/-! ### Q2: exposure (`q2_calculator.calculate_q2_exposure`) -/

def q2_prod_indicators : List String := ["prod", "production", "prd", "live", "release"]

def q2_dev_env_indicators : List String :=
  ["dev", "development", "test", "testing", "stage", "staging", "stg",
   "homolog", "hml", "qa", "uat", "sandbox", "demo"]

def q2_public_services : List String :=
  ["auth", "login", "gateway", "api", "edge", "public", "portal", "www",
   "web", "frontend", "customer"]

/-- The `critical_domains` reachability multipliers of Q2. -/
def q2_critical_domains (d : String) : ℚ :=
  if d = "web_api" then mkRat 13 10
  else if d = "database" then mkRat 12 10
  else if d = "infrastructure" then mkRat 12 10
  else if d = "search_index" then mkRat 115 100
  else if d = "messaging" then mkRat 11 10
  else if d = "backend" then mkRat 105 100
  else if d = "frontend" then mkRat 9 10
  else if d = "build_tools" then mkRat 7 10
  else 1

/-- `q2_calculator.calculate_q2_exposure`: 60% exposure + 40% reachability,
clamped to [0,100].  The sequential reassignments of `exposure_score` and
`reachability_score` in the source are modelled as the let-chain below. -/
def calculate_q2_exposure (v : VulnData) : ℚ :=
  let is_dynamic := v.dynamic_finding
  let is_static := v.static_finding
  let exposure1 : ℚ := if is_dynamic then 75 else if is_static then 35 else 20
  let exposure2 := if v.verified then
      (if is_dynamic then min 100 (pyMul exposure1 (mkRat 12 10))
       else min 100 (pyMul exposure1 (mkRat 115 100)))
    else exposure1
  let urlLower := strLower v.url
  let exposure3 :=
    if v.url ≠ "" && !(["nan", "none", ""].contains urlLower) then
      let e := max exposure2 85
      let e := if ["https://", "http://", "ws://", "wss://"].any
          (fun x => strContainsSub urlLower x) then max e 90 else e
      if [".com", ".org", ".net", ".io", "public", "external"].any
          (fun x => strContainsSub urlLower x) then (95 : ℚ)
      else if ["localhost", "127.0.0.1", "internal", "private"].any
          (fun x => strContainsSub urlLower x) then min e 60
      else e
    else exposure2
  let ep := v.endpoints
  let epLower := strLower ep
  let exposure4 :=
    if ep ≠ "" && !(["nan", "none", ""].contains epLower) then
      let cnt : ℕ :=
        if strContainsSub ep "," then sepCountStr ep "," + 1
        else if strContainsSub ep ";" then sepCountStr ep ";" + 1
        else if strContainsSub ep "\n" then sepCountStr ep "\n" + 1
        else if 0 < ep.data.length then 1 else 0
      if 0 < cnt then
        let e := max exposure3 (pyAdd 50 (min 40 (pyMul (mkRat cnt 1) 5)))
        let e := if ["/api/", "/rest/", "/graphql", "/ws"].any
            (fun x => strContainsSub epLower x) then max e 70 else e
        let e := if ["/admin", "/manage", "/config"].any
            (fun x => strContainsSub epLower x) then max e 60 else e
        e
      else exposure3
    else exposure3
  let context := strLower (v.product ++ " " ++ v.service ++ " " ++ v.url ++ " " ++
      v.title ++ " " ++ v.engagement)
  let is_prod := q2_prod_indicators.any (fun x => strContainsSub context x)
  let is_dev := q2_dev_env_indicators.any (fun x => strContainsSub context x)
  let exposure5 :=
    if is_prod && !is_dev then min 100 (pyMul exposure4 (mkRat 13 10))
    else if is_dev && !is_prod then max 10 (pyMul exposure4 (mkRat 7 10))
    else exposure4
  let reach1 : ℚ :=
    if is_prod && !is_dev then min 100 (pyMul 30 (mkRat 13 10))
    else if is_dev && !is_prod then max 10 (pyMul 30 (mkRat 7 10))
    else 30
  let reach2 := if is_runtime_dependency v then max reach1 70 else min reach1 40
  let reach3 := min 100 (pyMul reach2 (q2_critical_domains (classify_domain v)))
  let service := strLower v.service
  let exposure6 :=
    if service ≠ "" && service ≠ "nan" &&
        q2_public_services.any (fun x => strContainsSub service x) then
      max exposure5 60
    else exposure5
  let q2 := pyAdd (pyMul (mkRat 6 10) exposure6) (pyMul (mkRat 4 10) reach3)
  min 100 (max 0 q2)

/-! ### Q3: impact (`q3_calculator.calculate_q3_impact`) -/

/-- The `severity_map` of Q3 (text severity → base impact, default 50). -/
def q3_severity_map (s : String) : ℚ :=
  if s = "critical" then 90 else if s = "s4" then 90
  else if s = "high" then 70 else if s = "s3" then 70
  else if s = "medium" then 50 else if s = "s2" then 50
  else if s = "low" then 30 else if s = "s1" then 30
  else if s = "informational" then 10 else if s = "info" then 10
  else if s = "s0" then 10
  else 50

/-- The `domain_multipliers` of Q3 (default 1.0). -/
def q3_domain_multipliers (d : String) : ℚ :=
  if d = "database" then mkRat 14 10
  else if d = "infrastructure" then mkRat 13 10
  else if d = "search_index" then mkRat 12 10
  else if d = "backend" then mkRat 115 100
  else if d = "web_api" then mkRat 11 10
  else if d = "messaging" then mkRat 105 100
  else if d = "frontend" then mkRat 9 10
  else if d = "build_tools" then mkRat 7 10
  else 1

/-- The occurrence-count amplifier of Q3, applied only when `occ > 1`:
stepped tiers from 5 occurrences up, `1 + 0.2*log10(occ)` below
(`log10f` stands for Python's `math.log10`). -/
def q3_occurrence_multiplier (log10f : ℚ → ℚ) (occ : ℚ) : ℚ :=
  if 500 ≤ occ then mkRat 25 10
  else if 100 ≤ occ then 2
  else if 50 ≤ occ then mkRat 16 10
  else if 20 ≤ occ then mkRat 14 10
  else if 10 ≤ occ then mkRat 13 10
  else if 5 ≤ occ then mkRat 12 10
  else pyAdd 1 (pyMul (log10f occ) (mkRat 2 10))

/-- The `high_sensitivity_keywords` of Q3. -/
def q3_sensitivity_keywords : List String :=
  ["auth", "authentication", "authorization", "crypto", "cryptograph",
   "encrypt", "password", "passwd", "credential", "token", "jwt", "oauth",
   "saml", "session", "cookie", "payment", "credit", "card", "billing",
   "personal", "pii", "gdpr", "sensitive"]

/-- Number of sensitivity keywords present in component+title+description. -/
def q3_sensitivity_count (v : VulnData) : ℕ :=
  let search_text := strLower v.component_name ++ " " ++ strLower v.title ++ " " ++
      strLower v.description
  (q3_sensitivity_keywords.filter (fun k => strContainsSub search_text k)).length

/-- The asset-criticality multiplier of Q3 (`criticality` parsed as int). -/
def q3_criticality_step (c : ℤ) (base : ℚ) : ℚ :=
  if 9 ≤ c then pyMul base (mkRat 14 10)
  else if 8 ≤ c then pyMul base (mkRat 13 10)
  else if 7 ≤ c then pyMul base (mkRat 12 10)
  else if 6 ≤ c then pyMul base (mkRat 11 10)
  else if c ≤ 3 then pyMul base (mkRat 8 10)
  else base

/-- `q3_calculator.calculate_q3_impact`: CVSS×10 (or severity lookup),
multiplied by the occurrence amplifier, asset criticality, domain
multiplier, sensitivity bonus, and the verified bonus; clamped to [0,100]. -/
def calculate_q3_impact (log10f : ℚ → ℚ) (v : VulnData) : ℚ :=
  let cvss := v.cvssv3_score.getD 0
  let base0 : ℚ :=
    if 0 < cvss then pyMul cvss 10
    else
      let sev := strLower v.severity
      q3_severity_map (if sev = "" then strLower v.numerical_severity else sev)
  let occ := v.nb_occurences.getD 1
  let base1 := if 1 < occ then pyMul base0 (q3_occurrence_multiplier log10f occ) else base0
  let base2 := match v.criticality with
    | none => base1
    | some c => q3_criticality_step c base1
  let base3 := pyMul base2 (q3_domain_multipliers (classify_domain v))
  let sc := q3_sensitivity_count v
  let base4 :=
    if 3 ≤ sc then pyMul base3 (mkRat 13 10)
    else if 1 ≤ sc then pyMul base3 (mkRat 115 100)
    else base3
  let base5 := if v.verified then pyMul base4 (mkRat 105 100) else base4
  min 100 (max 0 base5)

/-! ### Q4: fixability (`q4_calculator.calculate_q4_fixability`) -/

/-- `q4_calculator.calculate_q4_fixability`: `100 - fix_friction`, clamped. -/
def calculate_q4_fixability (v : VulnData) : ℚ :=
  let mitigation := strLower v.mitigation
  let f0 : ℚ :=
    if strContainsSub mitigation "upgrade to version" || strContainsSub mitigation "update"
    then 0 else 30
  let f1 := match v.effort_for_fixing with
    | none => f0
    | some (.num q) => if q ≠ 0 then pyAdd f0 (pyMul q 10) else f0
    | some (.str s) =>
      if s ≠ "" then
        let su := strUpper s
        if strContainsSub su "HIGH" || strContainsSub su "COMPLEX" then pyAdd f0 40
        else if strContainsSub su "MEDIUM" || strContainsSub su "MODERATE" then pyAdd f0 20
        else if strContainsSub su "LOW" || strContainsSub su "SIMPLE" then pyAdd f0 10
        else f0
      else f0
  let f2 := if v.has_jira_issue then pySub f1 20 else f1
  let domain := classify_domain v
  let f3 := if domain = "database" || domain = "infrastructure" then pyAdd f2 20 else f2
  max 0 (min 100 (pySub 100 f3))

/-! ### Q5: urgency (`q5_calculator.py`) -/

/-- Threat tier from `q5_calculator._threat_block`. -/
inductive ThreatTier
  | tnone
  | tlow
  | tmed
  | thigh
  | tcritical
deriving DecidableEq

/-- `q5_calculator._exposure_factor`: a factor in [0.7, 1.0] modulating the
threat, preferring the injected `q2_exposure`, else the URL/dynamic/runtime/
prod heuristic. -/
def exposure_factor (v : VulnData) : ℚ :=
  match v.q2_exposure with
  | some q2 =>
    if 60 ≤ q2 then 1
    else if 40 ≤ q2 then mkRat 9 10
    else if 20 ≤ q2 then mkRat 85 100
    else mkRat 7 10
  | none =>
    let url := strLower v.url
    let dynamic := v.dynamic_finding
    let runtime := v.is_runtime.getD false
    let ctx := strLower (v.environment ++ " " ++ v.service ++ " " ++ url)
    let is_prod := ["prod", "production", "prd", "live"].any (fun x => strContainsSub ctx x)
    let publicish := ["http://", "https://", ".com", ".org", ".net", ".io",
        "public", "external"].any (fun x => strContainsSub url x)
    let score : ℕ := (if publicish then 40 else 0) + (if dynamic then 30 else 0) +
        (if runtime then 20 else 0) + (if is_prod then 20 else 0)
    if 70 ≤ score then 1
    else if 40 ≤ score then mkRat 9 10
    else if 20 ≤ score then mkRat 85 100
    else mkRat 7 10

/-- Result of `q5_calculator._threat_block`. -/
structure ThreatBlock where
  score : ℚ
  tier : ThreatTier
  has_poc : Bool
  has_kev : Bool
  epss_score : ℚ
  epss_percentile : ℚ

/-- `q5_calculator._threat_block`.  Note the Python truthiness of the cache
dicts: an *empty* `epss_data` / `kev_data` falls back to the record's own
JSON fields / reports no KEV, even for a CVE the catalog would contain. -/
def threat_block (f : ExternalDataFetcher) (v : VulnData) : ThreatBlock :=
  let cve := strStrip v.vulnerability_ids
  let einfo :=
    if cve ≠ "" && !f.epss_data.isEmpty then lookupEpss f cve else none
  let epss_score := match einfo with
    | some e => e.epss
    | none => v.epss_score.getD 0
  let epss_percentile := match einfo with
    | some e => e.percentile
    | none => v.epss_percentile.getD 0
  let has_poc := if cve ≠ "" then (check_poc_availability f cve).has_poc
    else v.has_poc_field
  let kevEntry := if cve ≠ "" && !f.kev_data.isEmpty then lookupKev f cve else none
  let kev := kevEntry.isSome
  let known_ransom := (kevEntry.map (fun k => k.known_ransomware)).getD false
  let kev_recent := (kevEntry.map (fun k => k.date_added_recent)).getD false
  let t0 := pyMul 100 (pyAdd (pyMul (mkRat 65 100) epss_score)
      (pyMul (mkRat 35 100) (pyDiv epss_percentile 100)))
  let t1 := if has_poc then pyAdd t0 8 else t0
  let t2 := if kev then (let m := max t1 90; if kev_recent then pyAdd m 5 else m) else t1
  let t3 := if known_ransom then (100 : ℚ) else t2
  let threat := max 0 (min 100 t3)
  let tier :=
    if kev || known_ransom then ThreatTier.tcritical
    else if 80 ≤ threat then ThreatTier.thigh
    else if 50 ≤ threat || has_poc then ThreatTier.tmed
    else if 20 ≤ threat then ThreatTier.tlow
    else ThreatTier.tnone
  ⟨threat, tier, has_poc, kev, epss_score, epss_percentile⟩

/-- `q5_calculator._age_urgency`: age urgency gated by threat tier, with the
cooldown for old low-threat findings.  `int(base*mult)` truncates toward
zero (the operand is non-negative here). -/
def age_urgency (v : VulnData) (tier : ThreatTier) : ℚ :=
  match v.sla_age with
  | none => 0
  | some days =>
    let base : ℚ :=
      if 730 < days then 20 else if 365 < days then 18 else if 180 < days then 16
      else if 90 < days then 12 else if 30 < days then 8 else if 7 < days then 4
      else 0
    let cap : ℤ := match tier with
      | .tnone => 10 | .tlow => 20 | .tmed => 25 | .thigh => 30 | .tcritical => 35
    let mult : ℚ := match tier with
      | .tnone => mkRat 5 10 | .tlow => mkRat 7 10 | .tmed => mkRat 9 10
      | .thigh => 1 | .tcritical => mkRat 11 10
    let capped0 : ℤ := min cap (ratTrunc (pyMul base mult))
    let capped1 : ℤ :=
      if 730 ≤ days && (tier = .tnone || tier = .tlow) then max 0 (capped0 - 8)
      else capped0
    mkRat capped1 1

/-- `q5_calculator._sla_component`. -/
def sla_component (v : VulnData) : ℚ :=
  if v.violates_sla then 100
  else match v.sla_days_remaining with
  | none => 25
  | some d =>
    if d < 0 then 100
    else if d ≤ 3 then 95
    else if d ≤ 7 then 90
    else if d ≤ 14 then 80
    else if d ≤ 30 then 70
    else if d ≤ 60 then 50
    else if d ≤ 90 then 30
    else 20

/-- `q5_calculator._exploit_factor_from_q1`. -/
def exploit_factor_from_q1 (q1o : Option ℚ) (tier : ThreatTier)
    (has_poc has_kev : Bool) : ℚ :=
  match q1o with
  | none => 1
  | some q1 =>
    if (!has_poc && !has_kev) && (tier = .tnone || tier = .tlow) then
      (if q1 < 25 then mkRat 75 100 else if q1 < 50 then mkRat 9 10 else 1)
    else if 85 ≤ q1 then mkRat 107 100
    else if 70 ≤ q1 then mkRat 104 100
    else if q1 < 30 then mkRat 95 100
    else 1

/-- `q5_calculator._impact_factor_from_q3`. -/
def impact_factor_from_q3 (q3o : Option ℚ) (has_kev sla_urgent : Bool) : ℚ :=
  match q3o with
  | none => 1
  | some q3 =>
    if has_kev || sla_urgent then 1
    else if q3 < 30 then mkRat 8 10
    else if q3 < 50 then mkRat 92 100
    else if q3 < 70 then 1
    else if 85 ≤ q3 then mkRat 106 100
    else mkRat 102 100

/-- `q5_calculator._fixability_nudge_from_q4`. -/
def fixability_nudge_from_q4 (q4o : Option ℚ) : ℚ :=
  match q4o with
  | none => 1
  | some q4 => if 80 ≤ q4 then mkRat 103 100 else if q4 ≤ 20 then mkRat 97 100 else 1

/-- `q5_calculator.calculate_q5_urgency`. -/
def calculate_q5_urgency (f : ExternalDataFetcher) (v : VulnData) : ℚ :=
  let sla_u := sla_component v
  let sla_urgent := v.violates_sla || (v.sla_days_remaining.getD 1 < 0)
  let tb := threat_block f v
  let tier := tb.tier
  let has_poc := tb.has_poc
  let has_kev := tb.has_kev
  let exp_factor := exposure_factor v
  let threat1 := min 100 (pyMul tb.score exp_factor)
  let age_u := age_urgency v tier
  let threat2 := pyMul threat1 (exploit_factor_from_q1 v.q1_exploitability tier has_poc has_kev)
  let threat3 := pyMul threat2 (impact_factor_from_q3 v.q3_impact has_kev sla_urgent)
  let threat4 := max 0 (min 100 threat3)
  let w_sla : ℚ :=
    if tier = .tnone || tier = .tlow then mkRat 65 100
    else if tier = .tcritical then mkRat 45 100 else mkRat 50 100
  let w_thr : ℚ :=
    if tier = .tnone || tier = .tlow then mkRat 25 100
    else if tier = .tcritical then mkRat 40 100 else mkRat 35 100
  let w_age : ℚ :=
    if tier = .tnone || tier = .tlow then mkRat 10 100
    else mkRat 15 100
  let q5a := pyAdd (pyAdd (pyMul w_sla sla_u) (pyMul w_thr threat4)) (pyMul w_age age_u)
  let q5b := if v.verified then pyMul q5a (mkRat 104 100) else q5a
  let q5c := if v.dynamic_finding then pyMul q5b (mkRat 103 100) else q5b
  let q5d := match v.scanner_confidence with
    | none => q5c
    | some conf =>
      let conf01 := if conf ≤ 1 then conf else pyDiv conf 100
      if conf01 < mkRat 5 10 && !has_kev && (tier = .tnone || tier = .tlow) then
        pyMul q5c (mkRat 85 100)
      else q5c
  let q5e := pyMul q5d (fixability_nudge_from_q4 v.q4_fixability)
  let q5f := if v.risk_accepted then pyMul q5e (mkRat 30 100) else q5e
  let q5g := if v.is_mitigated then pyMul q5f (mkRat 50 100) else q5f
  let q5h := if v.false_p then pyMul q5g (mkRat 20 100) else q5g
  let q5i := if sla_urgent then max q5h 100 else q5h
  min 100 (max 0 q5i)

/-! ### Coupling & gate engine (`calculators.RiskPriorityCalculator.calculate_rpi`) -/

/-- `metrics.has_kev`: membership of the *raw* `vulnerability_ids` string in
the KEV cache (`calculate_rpi` line 88 does not normalize the id). -/
def rawKev (f : ExternalDataFetcher) (v : VulnData) : Bool :=
  (lookupKev f v.vulnerability_ids).isSome

/-- `metrics.has_poc` as computed by `calculate_rpi` (which passes the raw id
to `check_poc_availability`; normalization happens inside). -/
def rawPoc (f : ExternalDataFetcher) (v : VulnData) : Bool :=
  (check_poc_availability f v.vulnerability_ids).has_poc

/-- `metrics.epss_score` (0 when the raw id is not in the EPSS cache). -/
def rawEpssScore (f : ExternalDataFetcher) (v : VulnData) : ℚ :=
  ((lookupEpss f v.vulnerability_ids).map (fun e => e.epss)).getD 0

/-- `metrics.epss_percentile`. -/
def rawEpssPercentile (f : ExternalDataFetcher) (v : VulnData) : ℚ :=
  ((lookupEpss f v.vulnerability_ids).map (fun e => e.percentile)).getD 0

/-- Step 2 of `calculate_rpi`: the exploit gate `g_exploit`. -/
def gate_exploit (f : ExternalDataFetcher) (v : VulnData) : ℚ :=
  if rawKev f v then mkRat 120 100
  else if rawPoc f v then mkRat 115 100
  else if mkRat 50 100 ≤ rawEpssScore f v then mkRat 110 100
  else if mkRat 20 100 ≤ rawEpssScore f v then mkRat 105 100
  else 1

/-- Step 3 of `calculate_rpi`: the surface gate `g_surface` from the base Q2. -/
def gate_surface (q2_base : ℚ) : ℚ :=
  if 80 ≤ q2_base then mkRat 115 100
  else if 60 ≤ q2_base then mkRat 108 100
  else mkRat 95 100

/-- Step 4 of `calculate_rpi`: the environment factor `f_env` from the
product/service/url/title text. -/
def env_factor (v : VulnData) : ℚ :=
  let txt := strLower (v.product ++ " " ++ v.service ++ " " ++ v.url ++ " " ++ v.title)
  let prod_like := ["prod", "production", "prd"].any (fun x => strContainsSub txt x)
  let dev_like := ["dev", "test", "stage", "stg", "homolog", "hml", "qa"].any
      (fun x => strContainsSub txt x)
  if prod_like && !dev_like then mkRat 11 10
  else if dev_like && !prod_like then mkRat 85 100
  else 1

/-- Step 6 of `calculate_rpi`: the validation boost (verified ×1.15,
dynamic ×1.10, scanner confidence < 0.5 ×0.7). -/
def validation_boost (v : VulnData) : ℚ :=
  let b1 : ℚ := if v.verified then mkRat 115 100 else 1
  let b2 := if v.dynamic_finding then pyMul b1 (mkRat 11 10) else b1
  match v.scanner_confidence with
  | some c => if c < mkRat 5 10 then pyMul b2 (mkRat 7 10) else b2
  | none => b2

/-- Step 7 of `calculate_rpi`: the occurrence boost applied to the coupled
Q3 (re-capped at 100 in each branch). -/
def occ_amplified_q3 (v : VulnData) (q3c : ℚ) : ℚ :=
  match v.nb_occurences with
  | none => q3c
  | some occ =>
    if 100 < occ then min 100 (pyMul q3c (mkRat 15 10))
    else if 50 < occ then min 100 (pyMul q3c (mkRat 13 10))
    else if 10 < occ then min 100 (pyMul q3c (mkRat 115 100))
    else q3c

/-- Step 9 of `calculate_rpi`: the management-flag penalties, in source
order (risk-accepted ×0.05, mitigated ×0.10, false-positive ×0.20). -/
def apply_penalties (v : VulnData) (rpi : ℚ) : ℚ :=
  let r1 := if v.risk_accepted then pyMul rpi (mkRat 5 100) else rpi
  let r2 := if v.is_mitigated then pyMul r1 (mkRat 10 100) else r1
  if v.false_p then pyMul r2 (mkRat 20 100) else r2

/-- `RiskPriorityCalculator.calculate_rpi` (`calculators.py`): base 5Q
scores, coupling gates, weighted RPI with validation boost, penalties, the
SLA override `rpi = max(rpi, 85)` applied *after* the penalties, and the
final clamp to [0,100].  Q1..Q4 and `is_runtime` are injected into the
record before Q5 runs, exactly as the source mutates `vuln_data`. -/
def calculate_rpi (f : ExternalDataFetcher) (log10f : ℚ → ℚ)
    (cfg : ProcessingConfig) (v : VulnData) : VulnerabilityMetrics :=
  let q1 := calculate_q1_exploitability f v
  let q2 := calculate_q2_exposure v
  let q3 := calculate_q3_impact log10f v
  let q4 := calculate_q4_fixability v
  let isrt := is_runtime_dependency v
  let v5 := { v with q1_exploitability := some q1, q2_exposure := some q2,
                     q3_impact := some q3, q4_fixability := some q4,
                     is_runtime := some isrt }
  let q5 := calculate_q5_urgency f v5
  let ge := gate_exploit f v
  let gs := gate_surface q2
  let fe := env_factor v
  let q1c := min 100 (pyMul q1 gs)
  let q2c := min 100 (pyMul q2 fe)
  let q3c := min 100 (pyMul q3 ge)
  let q4c := q4
  let q5c := min 100 (pyMul (pyMul (pyMul q5 (pyAdd (mkRat 7 10) (pyMul (mkRat 3 10) ge)))
      (pyAdd (mkRat 8 10) (pyMul (mkRat 2 10) gs))) fe)
  let q3c' := occ_amplified_q3 v q3c
  let rpi0 := pyMul
      (pyAdd (pyAdd (pyAdd (pyAdd (pyMul cfg.w_q1 q1c) (pyMul cfg.w_q2 q2c))
        (pyMul cfg.w_q3 q3c')) (pyMul cfg.w_q4 q4c)) (pyMul cfg.w_q5 q5c))
      (validation_boost v)
  let rpi1 := apply_penalties v rpi0
  let rpi2 := if v.violates_sla then max rpi1 85 else rpi1
  { q1_exploitability := q1c, q2_exposure := q2c, q3_impact := q3c',
    q4_fixability := q4c, q5_urgency := q5c,
    rpi_score := max 0 (min 100 rpi2),
    domain := classify_domain v, is_runtime := isrt,
    has_kev := rawKev f v, has_poc := rawPoc f v,
    epss_score := rawEpssScore f v, epss_percentile := rawEpssPercentile f v }

/-! ### Tie-breaker (`calculators.TieBreaker.get_tie_breaker_key`) -/

/-- One component of the heterogeneous Python comparison tuple: a number or
a string. -/
inductive KF
  | num (q : ℚ)
  | str (s : String)
deriving DecidableEq

/-- Python bool-to-int for the tie-break tuple. -/
def boolI (b : Bool) : ℚ := if b then 1 else 0

/-- The stable unique id of the tie-break tuple:
`vuln_data.get('unique_id_from_tool', vuln_data.get('id', ''))`. -/
def tie_unique_id (v : VulnData) : String :=
  match v.unique_id_from_tool with
  | some s => s
  | none => v.id_field

/-- `TieBreaker.get_tie_breaker_key`: the 19-field deterministic comparison
tuple, with the source's `safe_value`/`safe_bool` defaults and negations. -/
def get_tie_breaker_key (v : VulnData) (m : VulnerabilityMetrics) : List KF :=
  let sla_days : ℚ := v.sla_days_remaining.getD 999999
  let sla_deadline : String := v.sla_deadline.getD "9999-12-31"
  let confidence : ℚ := match v.scanner_confidence with
    | some c => pyNeg c
    | none => mkRat 5 10
  let occurences : ℚ := match v.nb_occurences with
    | some o => pyNeg o
    | none => 1
  let endpoints_count : ℕ :=
    if v.endpoints ≠ "" && v.endpoints ≠ "NaN" then sepCountStr v.endpoints "," + 1 else 0
  let has_url : ℚ := if v.url ≠ "" && v.url ≠ "NaN" then 1 else 0
  let cvss : ℚ := match v.cvssv3_score with
    | some c => pyNeg c
    | none => 0
  let effort : ℚ := match v.effort_for_fixing with
    | some (.num q) => q
    | _ => 999999
  [KF.num (pyNeg (boolI v.violates_sla)),
   KF.num sla_days,
   KF.str sla_deadline,
   KF.num (pyNeg (boolI v.verified)),
   KF.num (pyNeg (boolI v.dynamic_finding)),
   KF.num (boolI v.false_p),
   KF.num (boolI v.is_mitigated),
   KF.num (boolI v.risk_accepted),
   KF.num confidence,
   KF.num (pyNeg (boolI m.has_kev)),
   KF.num (pyNeg m.epss_percentile),
   KF.num occurences,
   KF.num (pyNeg (mkRat endpoints_count 1)),
   KF.num (pyNeg has_url),
   KF.num cvss,
   KF.num (pyNeg (boolI m.is_runtime)),
   KF.num effort,
   KF.num (pyNeg (boolI v.has_jira_issue)),
   KF.str (tie_unique_id v)]

/-! ### Lexicographic comparison of tie-break keys

Python compares tuples lexicographically with `<` on the components; the
components at each position have the same type across all keys produced by
`get_tie_breaker_key` (numbers, except the date string at index 2 and the
unique id at index 18), so the comparison is well-defined.  `KF.ltB` orders
numbers before strings so that it is total on all of `KF`; mixed positions
never arise between two generated keys. -/

/-- Code-point comparison of characters (Python string `<` is lexicographic
by code point). -/
def charLtB (a b : Char) : Bool := a.toNat < b.toNat

/-- Lexicographic `<` on character lists. -/
def strLtB : List Char → List Char → Bool
  | [], [] => false
  | [], _ :: _ => true
  | _ :: _, [] => false
  | x :: xs, y :: ys => charLtB x y || (x == y && strLtB xs ys)

/-- Strict comparison of key fields. -/
def KF.ltB : KF → KF → Bool
  | .num a, .num b => decide (a < b)
  | .num _, .str _ => true
  | .str _, .num _ => false
  | .str a, .str b => strLtB a.data b.data

/-- Lexicographic strict comparison of whole keys (Python tuple `<`). -/
def keyLtB : List KF → List KF → Bool
  | [], [] => false
  | [], _ :: _ => true
  | _ :: _, [] => false
  | x :: xs, y :: ys => KF.ltB x y || (x == y && keyLtB xs ys)

/-! ### Stable sort

Python's `sorted` / `list.sort` is a stable ascending sort by key.  It is
modelled as left-to-right insertion that places each element *after* the
already-placed elements it is `le`-related to, which is stable and sorts
ascending for `le a b = ¬(key b < key a)`. -/

/-- Insert `x` after every element `y` of the (sorted) list with `le y x`. -/
def insertOrd (le : α → α → Bool) (x : α) : List α → List α
  | [] => [x]
  | y :: ys => if le y x then y :: insertOrd le x ys else x :: y :: ys

/-- Stable ascending sort (models Python `sorted(..., key=...)`). -/
def stableSort (le : α → α → Bool) (l : List α) : List α :=
  l.foldl (fun acc x => insertOrd le x acc) []

/-! ### Scored records and the primary sort (`prioritizer.py`) -/

/-- A record that survived the worker: the (deduplicated) record, its
computed metrics (`vuln['rpi_metrics']` / `vuln['rpi_score']`), and its
stored tie-break key (`vuln['tie_breaker_key']`). -/
structure Scored where
  data : VulnData
  metrics : VulnerabilityMetrics
  tie_breaker_key : List KF
deriving DecidableEq

/-- `VulnerabilityPrioritizer.process_vulnerability_worker`: records missing
all of title / vulnerability_ids / component_name are rejected (`None`),
otherwise the metrics and tie-break key are attached. -/
def process_vulnerability_worker (f : ExternalDataFetcher) (log10f : ℚ → ℚ)
    (cfg : ProcessingConfig) (v : VulnData) : Option Scored :=
  if v.title = "" && v.vulnerability_ids = "" && v.component_name = "" then none
  else
    let m := calculate_rpi f log10f cfg v
    some ⟨v, m, get_tie_breaker_key v m⟩

/-- The successfully scored records of a batch, in batch order (the actual
worker pool yields them in completion order; see the C8 analysis). -/
def score_all (f : ExternalDataFetcher) (log10f : ℚ → ℚ) (cfg : ProcessingConfig)
    (l : List VulnData) : List Scored :=
  l.filterMap (process_vulnerability_worker f log10f cfg)

/-- The sort key of the primary sort:
`key=lambda x: (-x['rpi_score'], x['tie_breaker_key'])`, flattened. -/
def primary_sort_key (s : Scored) : List KF :=
  KF.num (pyNeg s.metrics.rpi_score) :: s.tie_breaker_key

/-- Non-strict comparison used by the (stable) primary sort. -/
def primaryLe (a b : Scored) : Bool :=
  !(keyLtB (primary_sort_key b) (primary_sort_key a))

/-- Step 4 of `process_vulnerabilities`: the primary sort. -/
def primary_sort (l : List Scored) : List Scored := stableSort primaryLe l

/-! ### Deduplicator (`VulnerabilityPrioritizer._deduplicate_vulnerabilities`) -/

/-- The identifier chain `cve_id or hash_code or unique_id or str(id)`
(first non-empty string wins). -/
def record_identifier (v : VulnData) : String :=
  if v.vulnerability_ids ≠ "" then v.vulnerability_ids
  else if v.hash_code ≠ "" then v.hash_code
  else if v.unique_id_from_tool.getD "" ≠ "" then v.unique_id_from_tool.getD ""
  else v.id_field

/-- A dedup key: the string identifier, or — when every identifier field is
empty — the memory identity `str(id(vuln))`, modelled as the record's
position in the input list (never equal across distinct records). -/
abbrev DedupKey := String ⊕ ℕ

/-- The dedup key of the record at position `pos`. -/
def dedup_key (pos : ℕ) (v : VulnData) : DedupKey :=
  if record_identifier v = "" then Sum.inr pos else Sum.inl (record_identifier v)

/-- `counts[identifier] = counts.get(identifier, 0) + 1` on the association
list (in-place increment, preserving insertion order). -/
def bump_count (counts : List (DedupKey × ℕ)) (k : DedupKey) : List (DedupKey × ℕ) :=
  match counts with
  | [] => [(k, 1)]
  | (k', n) :: rest => if k' == k then (k', n + 1) :: rest else (k', n) :: bump_count rest k

/-- `if identifier not in unique_map: unique_map[identifier] = vuln`. -/
def add_unique (uniq : List (DedupKey × VulnData)) (k : DedupKey) (v : VulnData) :
    List (DedupKey × VulnData) :=
  if uniq.any (fun p => p.1 == k) then uniq else uniq ++ [(k, v)]

/-- The single pass over the enumerated batch building `counts` and
`unique_map` (Python dicts preserve insertion order). -/
def dedup_pass : List (ℕ × VulnData) → List (DedupKey × ℕ) → List (DedupKey × VulnData) →
    List (DedupKey × ℕ) × List (DedupKey × VulnData)
  | [], counts, uniq => (counts, uniq)
  | (i, v) :: rest, counts, uniq =>
    let k := dedup_key i v
    dedup_pass rest (bump_count counts k) (add_unique uniq k v)

/-- `counts.get(identifier, 1)`. -/
def count_lookup (counts : List (DedupKey × ℕ)) (k : DedupKey) : ℕ :=
  match counts.find? (fun p => p.1 == k) with
  | some p => p.2
  | none => 1

/-- The count stored for `k`, 0 when `k` was never counted (reference
function for the characterization of the pass). -/
def count_val (counts : List (DedupKey × ℕ)) (k : DedupKey) : ℕ :=
  match counts.find? (fun p => p.1 == k) with
  | some p => p.2
  | none => 0

/-- `VulnerabilityPrioritizer._deduplicate_vulnerabilities`: collapse the
batch to the first record of each identity, overwriting `nb_occurences`
with the number of occurrences. -/
def deduplicate_vulnerabilities (l : List VulnData) : List VulnData :=
  let p := dedup_pass l.enum [] []
  p.2.map (fun kv => { kv.2 with nb_occurences := some (mkRat (count_lookup p.1 kv.1) 1) })

/-- Reference function for the dedup characterization: the key of each first
occurrence, paired with the record, skipping keys already `seen`. -/
def first_occurrences (seen : List DedupKey) : List (ℕ × VulnData) → List (DedupKey × VulnData)
  | [] => []
  | (i, v) :: rest =>
    let k := dedup_key i v
    if seen.contains k then first_occurrences seen rest
    else (k, v) :: first_occurrences (k :: seen) rest

/-- Reference function: how many records of the enumerated batch carry the
given dedup key. -/
def key_count (l : List (ℕ × VulnData)) (k : DedupKey) : ℕ :=
  (l.filter (fun iv => dedup_key iv.1 iv.2 == k)).length

/-! ### Funnel re-ranker (`VulnerabilityPrioritizer._apply_funneling_if_needed`) -/

/-- `VulnerabilityPrioritizer._parse_effort` (the topsis cost criterion).
A numeric value covers both the `isdigit` and the plain-`float` branches of
the source; `none` (missing) yields the neutral 5. -/
def parse_effort (e : Option EffortVal) : ℚ :=
  match e with
  | none => 5
  | some (.num q) => max 0 q
  | some (.str s) =>
    let t := strLower (strStrip s)
    if t = "low" || t = "baixo" then 1
    else if t = "medium" || t = "médio" || t = "medio" then 5
    else if t = "high" || t = "alto" then 10
    else 5

/-- `VulnerabilityPrioritizer._cohort_bucket` (metrics are always present
for scored records, so the `if not metrics` guard is not reachable). -/
def cohort_bucket (s : Scored) : ℕ :=
  if s.data.violates_sla then 0
  else if s.metrics.has_kev then 1
  else if s.metrics.has_poc then 2
  else if 90 ≤ s.metrics.epss_percentile then 3
  else if 80 ≤ s.metrics.q2_exposure && 80 ≤ s.metrics.q3_impact then 4
  else 5

/-- `VulnerabilityPrioritizer._local_topsis_score`: the local TOPSIS
closeness coefficient with the fixed global normalization bounds
(`sqrtf` stands for `math.sqrt`). -/
def local_topsis_score (cfg : ProcessingConfig) (sqrtf : ℚ → ℚ) (s : Scored) : ℚ :=
  if !cfg.mcdm_use_topsis then 0
  else
    let q1 := s.metrics.q1_exploitability
    let q2 := s.metrics.q2_exposure
    let q3 := s.metrics.q3_impact
    let q5 := s.metrics.q5_urgency
    let epss_p := s.metrics.epss_percentile
    let occ := s.data.nb_occurences.getD 0
    let conf0 := s.data.scanner_confidence.getD 0
    let conf := if 1 < conf0 then pyDiv conf0 100 else conf0
    let eff := parse_effort s.data.effort_for_fixing
    let cap_occ := pyAdd 1 (if occ < 1000000 then occ else 1000000)
    let nrm := fun (val lo hi : ℚ) =>
      if hi ≤ lo then mkRat 1 2 else pyDiv (pySub val lo) (pySub hi lo)
    let w1 := pyMul cfg.mw_q1 (nrm q1 0 100)
    let w2 := pyMul cfg.mw_q2 (nrm q2 0 100)
    let w3 := pyMul cfg.mw_q3 (nrm q3 0 100)
    let w5 := pyMul cfg.mw_q5 (nrm q5 0 100)
    let wepss := pyMul cfg.mw_epss (nrm epss_p 0 100)
    let wocc := pyMul cfg.mw_occ (nrm (min occ cap_occ) 0 cap_occ)
    let wconf := pyMul cfg.mw_conf (nrm conf 0 1)
    let eff_cap := max 1 eff
    let weff := pyMul cfg.mw_effort (pySub 1 (nrm (min eff eff_cap) 0 eff_cap))
    let sq := fun (x : ℚ) => pyMul x x
    let dplus := sqrtf (pyAdd (pyAdd (pyAdd (pyAdd (pyAdd (pyAdd (pyAdd
        (sq (pySub 1 w1)) (sq (pySub 1 w2))) (sq (pySub 1 w3))) (sq (pySub 1 w5)))
        (sq (pySub 1 wepss))) (sq (pySub 1 wocc))) (sq (pySub 1 wconf))) (sq (pySub 1 weff)))
    let dminus := sqrtf (pyAdd (pyAdd (pyAdd (pyAdd (pyAdd (pyAdd (pyAdd
        (sq w1) (sq w2)) (sq w3)) (sq w5)) (sq wepss)) (sq wocc)) (sq wconf)) (sq weff))
    if pyAdd dplus dminus = 0 then 0 else pyDiv dminus (pyAdd dplus dminus)

/-- Strict comparison of the block sort keys `(bucket, -topsis, tie_key)`. -/
def blockTupleLt (a b : ℕ × ℚ × List KF × Scored) : Bool :=
  a.1 < b.1 ||
    (a.1 == b.1 &&
      (decide (pyNeg a.2.1 < pyNeg b.2.1) ||
        (pyNeg a.2.1 == pyNeg b.2.1 && keyLtB a.2.2.1 b.2.2.1)))

/-- `VulnerabilityPrioritizer._reorder_equal_group`: sort the equal-score
block by `(bucket asc, topsis desc, original tie-break key asc)`. -/
def reorder_equal_group (cfg : ProcessingConfig) (sqrtf : ℚ → ℚ)
    (block : List Scored) : List Scored :=
  let tuples := block.map (fun v =>
      (cohort_bucket v, local_topsis_score cfg sqrtf v, v.tie_breaker_key, v))
  (stableSort (fun x y => !(blockTupleLt y x)) tuples).map (fun t => t.2.2.2)

/-- The (unrounded) RPI of the head record at index `i` (0 past the end). -/
def head_score (head : List Scored) (i : ℕ) : ℚ :=
  ((head[i]?).map (fun s => s.metrics.rpi_score)).getD 0

/-- First-occurrence deduplication of a list of rationals (`seen` collects
the keys already emitted). -/
def firstDedupQGo (seen : List ℚ) : List ℚ → List ℚ
  | [] => []
  | k :: rest =>
    if seen.contains k then firstDedupQGo seen rest
    else k :: firstDedupQGo (k :: seen) rest

/-- First-occurrence deduplication of a list of rationals. -/
def firstDedupQ (l : List ℚ) : List ℚ := firstDedupQGo [] l

/-- The distinct rounded scores of the head, in first-appearance order
(the iteration order of the `groups` dict built by the funnel). -/
def group_keys (head : List Scored) : List ℚ :=
  firstDedupQ (head.map (fun s => round2 s.metrics.rpi_score))

/-- The index list of one rounded-score group: the dict-of-lists built by
the funnel's enumeration loop holds, for each key, exactly the head indices
with that rounded score, in increasing order. -/
def group_idxs (head : List Scored) (key : ℚ) : List ℕ :=
  (List.range head.length).filter (fun i => round2 (head_score head i) = key)

/-- `max(vals) - min(vals)` over the group's (unrounded) scores. -/
def group_spread (head : List Scored) (idxs : List ℕ) : ℚ :=
  let vals := idxs.map (head_score head)
  pySub (vals.max?.getD 0) (vals.min?.getD 0)

/-- A group qualifies when it has at least `funnel_threshold` members and
its score spread is within `funnel_equal_epsilon`. -/
def group_qualifies (cfg : ProcessingConfig) (head : List Scored) (idxs : List ℕ) : Bool :=
  cfg.funnel_threshold ≤ idxs.length && group_spread head idxs ≤ cfg.funnel_equal_epsilon

/-- The candidate-selection loop of `_apply_funneling_if_needed`: iterate
the groups in insertion order, keeping the first strictly-largest
qualifying group. -/
def pick_candidate (cfg : ProcessingConfig) (head : List Scored) : Option (List ℕ) :=
  (group_keys head).foldl
    (fun best key =>
      let idxs := group_idxs head key
      if group_qualifies cfg head idxs &&
          (match best with
           | none => true
           | some b => b.length < idxs.length) then
        some idxs
      else best)
    none

/-- Splice the re-sorted block back into the head:
`for new_pos, old_idx in enumerate(candidate_idx_list): head[old_idx] = re_sorted[new_pos]`. -/
def splice_at (head : List Scored) (idxs : List ℕ) (blk : List Scored) : List Scored :=
  (idxs.zip blk).foldl (fun h p => h.set p.1 p.2) head

/-- `VulnerabilityPrioritizer._apply_funneling_if_needed`. -/
def apply_funneling_if_needed (cfg : ProcessingConfig) (sqrtf : ℚ → ℚ)
    (l : List Scored) : List Scored :=
  if !cfg.funnel_enabled then l
  else if l.isEmpty then l
  else
    let top_k := min l.length cfg.top_k_for_funnel
    let head := l.take top_k
    match pick_candidate cfg head with
    | none => l
    | some idxs =>
      let block := idxs.filterMap (fun i => head[i]?)
      let re := reorder_equal_group cfg sqrtf block
      splice_at head idxs re ++ l.drop top_k

/-! ### The full pipeline (`VulnerabilityPrioritizer.process_vulnerabilities`)

Deduplication → scoring (worker pool) → primary sort → funnel.  The worker
pool's completion order only permutes the scored list before the sort; the
canonical pipeline below uses batch order (see C8 for order-independence). -/

/-- The full pipeline on a batch, with the scored records in batch order. -/
def process_vulnerabilities (f : ExternalDataFetcher) (log10f sqrtf : ℚ → ℚ)
    (cfg : ProcessingConfig) (l : List VulnData) : List Scored :=
  apply_funneling_if_needed cfg sqrtf
    (primary_sort (score_all f log10f cfg (deduplicate_vulnerabilities l)))

/-- The order-sensitive tail of the pipeline, taking the scored records in
an arbitrary (completion) order. -/
def process_results (cfg : ProcessingConfig) (sqrtf : ℚ → ℚ)
    (results : List Scored) : List Scored :=
  apply_funneling_if_needed cfg sqrtf (primary_sort results)

/-! ### Well-formedness of the external signal caches

The External Signal Provider interface documents EPSS scores in [0,1] and
percentiles in [0,100]; the engine itself never checks this.  Claims that
need a lower bound on the EPSS bonus assume a well-formed cache. -/

/-- The EPSS cache holds scores in [0,1] and percentiles in [0,100]. -/
def FetcherWF (f : ExternalDataFetcher) : Prop :=
  ∀ p ∈ f.epss_data,
    0 ≤ p.2.epss ∧ p.2.epss ≤ 1 ∧ 0 ≤ p.2.percentile ∧ p.2.percentile ≤ 100

/-! ### Concrete instances used by witnesses and counterexamples -/

/-- Concrete stand-in for `math.log10` (only its value at the occurrence
counts of concrete records matters; `log10c 2 = 0.3 ≈ log10(2)`). -/
def log10c : ℚ → ℚ := fun _ => mkRat 3 10

/-- Concrete stand-in for `math.sqrt` (only used where the TOPSIS value is
irrelevant or TOPSIS is disabled). -/
def sqrt0 : ℚ → ℚ := fun _ => 0

/-- A fetcher with empty caches (all external signals absent). -/
def fetcher0 : ExternalDataFetcher := {}

/-- The default configuration. -/
def cfg_default : ProcessingConfig := {}

/-- A record violating its SLA with an accepted risk (C1 witness). -/
def recSLA : VulnData := { title := "sla-violating", violates_sla := true, risk_accepted := true }

/-- A minimal valid record (C2 witness). -/
def recPlain : VulnData := { title := "plain" }

/-- Records with distinct tie-break unique ids (C3 witness). -/
def recT1 : VulnData := { title := "t1", unique_id_from_tool := some "a" }

def recT2 : VulnData := { title := "t1", unique_id_from_tool := some "b" }

/-- Default metrics used with the C3 witness records. -/
def mT : VulnerabilityMetrics := {}

/-- The record of the C5 scenario: cvss 9.8, 150 raw occurrences, database
domain, no SLA violation; submitted twice. -/
def recC5A : VulnData :=
  { vulnerability_ids := "CVE-2024-1111", title := "RCE in driver",
    component_name := "postgresql", cvssv3_score := some (mkRat 98 10),
    nb_occurences := some 150 }

/-- The C5 record after deduplication of the two-copy batch: the dedup stage
overwrites `nb_occurences` with the duplicate count 2. -/
def recC5dedup : VulnData := { recC5A with nb_occurences := some 2 }

/-- A configuration whose five weights sum to 2.5, far outside 1.0 ± 0.01
(C6 failing input; the funnel is disabled so the pipeline result is
independent of the numeric scores). -/
def cfgBadWeights : ProcessingConfig :=
  { w_q1 := mkRat 5 10, w_q2 := mkRat 5 10, w_q3 := mkRat 5 10,
    w_q4 := mkRat 5 10, w_q5 := mkRat 5 10, funnel_enabled := false }

/-- A minimal record processed under the invalid configuration (C6). -/
def recC6 : VulnData := { title := "x" }

/-- Funnel configuration for the C7 witness: any pair of equal-rounded-RPI
records qualifies; TOPSIS disabled (so the local score is the constant 0). -/
def cfgFunnel : ProcessingConfig := { funnel_threshold := 2, mcdm_use_topsis := false }

/-- A scored record with literal metrics and its computed tie-break key. -/
def mkScoredLit (rpi : ℚ) (uid : String) (kev : Bool) : Scored :=
  let v : VulnData := { title := "t", unique_id_from_tool := some uid }
  let m : VulnerabilityMetrics := { rpi_score := rpi, has_kev := kev }
  ⟨v, m, get_tie_breaker_key v m⟩

def scF1 : Scored := mkScoredLit 85 "a" false

def scF2 : Scored := mkScoredLit 85 "b" true

def scF3 : Scored := mkScoredLit 40 "c" false

/-- Two records that differ only in `component_version` (a field outside the
tie-break key): identical RPI and identical tie-break key (C8
counterexample). -/
def vX1 : VulnData := { title := "t", component_version := "1" }

def vX2 : VulnData := { title := "t", component_version := "2" }

/-- Shared metrics of the C8 counterexample records. -/
def mX : VulnerabilityMetrics := { rpi_score := 40 }

def scX1 : Scored := ⟨vX1, mX, get_tie_breaker_key vX1 mX⟩

def scX2 : Scored := ⟨vX2, mX, get_tie_breaker_key vX2 mX⟩

/-- Scored records with distinct tie-break unique ids (C8 amended witness). -/
def scT1 : Scored := ⟨recT1, mT, get_tie_breaker_key recT1 mT⟩

def scT2 : Scored := ⟨recT2, mT, get_tie_breaker_key recT2 mT⟩

/-- An EPSS cache entry with score exactly 0 but a large percentile (C10
witness). -/
def fetcherEps : ExternalDataFetcher :=
  { epss_data := [("CVE-2020-0001", { epss := 0, percentile := 99 })] }

/-- A record whose CVE has the zero-score EPSS entry above (C10 witness). -/
def recEps : VulnData := { title := "e", vulnerability_ids := "CVE-2020-0001" }

theorem pyAdd_eq (a b : ℚ) : pyAdd a b = a + b := by
  rw [pyAdd, Rat.mkRat_eq_div]
  push_cast
  conv_rhs => rw [← Rat.num_div_den a, ← Rat.num_div_den b]
  have ha : ((a.den : ℚ)) ≠ 0 := by positivity
  have hb : ((b.den : ℚ)) ≠ 0 := by positivity
  field_simp
  try ring

theorem pySub_eq (a b : ℚ) : pySub a b = a - b := by
  rw [pySub, Rat.mkRat_eq_div]
  push_cast
  conv_rhs => rw [← Rat.num_div_den a, ← Rat.num_div_den b]
  have ha : ((a.den : ℚ)) ≠ 0 := by positivity
  have hb : ((b.den : ℚ)) ≠ 0 := by positivity
  field_simp
  try ring

theorem pyMul_eq (a b : ℚ) : pyMul a b = a * b := by
  rw [pyMul, Rat.mkRat_eq_div]
  push_cast
  conv_rhs => rw [← Rat.num_div_den a, ← Rat.num_div_den b]
  have ha : ((a.den : ℚ)) ≠ 0 := by positivity
  have hb : ((b.den : ℚ)) ≠ 0 := by positivity
  field_simp
  try ring

theorem pyNeg_eq (a : ℚ) : pyNeg a = -a := by
  rw [pyNeg, Rat.mkRat_eq_div]
  push_cast
  conv_rhs => rw [← Rat.num_div_den a]
  field_simp
  try ring

theorem pyDiv_eq (a b : ℚ) : pyDiv a b = a / b := by
  rcases eq_or_ne b 0 with hb | hb
  · subst hb
    rw [pyDiv]
    norm_num [Rat.mkRat_eq_div]
  · have hbn : b.num ≠ 0 := by
      simpa [Rat.num_eq_zero] using hb
    have hden : ((b.den : ℚ)) ≠ 0 := by positivity
    have haden : ((a.den : ℚ)) ≠ 0 := by positivity
    rw [pyDiv]
    split_ifs with hs
    · have ht : ((b.num.toNat : ℕ) : ℚ) = ((b.num : ℤ) : ℚ) := by
        exact_mod_cast congrArg (fun z : ℤ => ((z : ℚ))) (Int.toNat_of_nonneg hs)
      rw [Rat.mkRat_eq_div]
      push_cast
      rw [ht]
      conv_rhs => rw [← Rat.num_div_den a, ← Rat.num_div_den b]
      have hbq : ((b.num : ℚ)) ≠ 0 := by exact_mod_cast hbn
      field_simp
      try ring
    · push_neg at hs
      have ht : (((-b.num).toNat : ℕ) : ℚ) = ((-b.num : ℤ) : ℚ) := by
        exact_mod_cast congrArg (fun z : ℤ => ((z : ℚ)))
          (Int.toNat_of_nonneg (by omega : (0 : ℤ) ≤ -b.num))
      rw [Rat.mkRat_eq_div]
      push_cast
      rw [ht]
      conv_rhs => rw [← Rat.num_div_den a, ← Rat.num_div_den b]
      have hbq : ((b.num : ℚ)) ≠ 0 := by exact_mod_cast hbn
      push_cast
      field_simp
      try ring

theorem pyAbs_eq (a : ℚ) : pyAbs a = |a| := by
  rw [pyAbs]
  split_ifs with h
  · rw [pyNeg_eq, abs_of_neg h]
  · rw [abs_of_nonneg (le_of_not_lt h)]

/-! ### The tie-break key order is a strict total order -/

theorem charLtB_trichotomy (a b : Char) :
    charLtB a b = true ∨ a = b ∨ charLtB b a = true := by
  rcases Nat.lt_trichotomy a.toNat b.toNat with h | h | h
  · exact Or.inl (by simpa [charLtB] using h)
  · refine Or.inr (Or.inl ?_)
    exact Char.eq_of_val_eq (UInt32.ext (by simpa [Char.toNat] using h))
  · exact Or.inr (Or.inr (by simpa [charLtB] using h))

theorem charLtB_asymm (a b : Char) (h1 : charLtB a b = true) (h2 : charLtB b a = true) :
    False := by
  simp only [charLtB, decide_eq_true_eq] at h1 h2
  omega

theorem charLtB_trans (a b c : Char) (h1 : charLtB a b = true) (h2 : charLtB b c = true) :
    charLtB a c = true := by
  simp only [charLtB, decide_eq_true_eq] at *
  omega

theorem strLtB_trichotomy (xs ys : List Char) :
    strLtB xs ys = true ∨ xs = ys ∨ strLtB ys xs = true := by
  induction xs generalizing ys with
  | nil => cases ys <;> simp [strLtB]
  | cons x xs ih =>
    cases ys with
    | nil => simp [strLtB]
    | cons y ys =>
      rcases charLtB_trichotomy x y with h | h | h
      · exact Or.inl (by simp [strLtB, h])
      · subst h
        rcases ih ys with h' | h' | h'
        · exact Or.inl (by simp [strLtB, h'])
        · exact Or.inr (Or.inl (by rw [h']))
        · exact Or.inr (Or.inr (by simp [strLtB, h']))
      · exact Or.inr (Or.inr (by simp [strLtB, h]))

theorem strLtB_irrefl (xs : List Char) : strLtB xs xs = false := by
  induction xs with
  | nil => rfl
  | cons x xs ih => simp [strLtB, charLtB, ih]

theorem strLtB_asymm (xs ys : List Char) (h1 : strLtB xs ys = true)
    (h2 : strLtB ys xs = true) : False := by
  induction xs generalizing ys with
  | nil => cases ys <;> simp [strLtB] at h1 h2
  | cons x xs ih =>
    cases ys with
    | nil => simp [strLtB] at h1
    | cons y ys =>
      simp only [strLtB, Bool.or_eq_true, Bool.and_eq_true, beq_iff_eq] at h1 h2
      rcases h1 with h1 | ⟨rfl, h1⟩
      · rcases h2 with h2 | ⟨rfl, h2⟩
        · exact charLtB_asymm _ _ h1 h2
        · simp [charLtB] at h1
      · rcases h2 with h2 | ⟨-, h2⟩
        · simp [charLtB] at h2
        · exact ih ys h1 h2

theorem strLtB_trans (xs ys zs : List Char) (h1 : strLtB xs ys = true)
    (h2 : strLtB ys zs = true) : strLtB xs zs = true := by
  induction xs generalizing ys zs with
  | nil =>
    cases ys with
    | nil => simp [strLtB] at h1
    | cons y ys => cases zs with
      | nil => simp [strLtB] at h2
      | cons z zs => simp [strLtB]
  | cons x xs ih =>
    cases ys with
    | nil => simp [strLtB] at h1
    | cons y ys =>
      cases zs with
      | nil => simp [strLtB] at h2
      | cons z zs =>
        simp only [strLtB, Bool.or_eq_true, Bool.and_eq_true, beq_iff_eq] at h1 h2 ⊢
        rcases h1 with h1 | ⟨rfl, h1⟩
        · rcases h2 with h2 | ⟨rfl, h2⟩
          · exact Or.inl (charLtB_trans _ _ _ h1 h2)
          · exact Or.inl h1
        · rcases h2 with h2 | ⟨rfl, h2⟩
          · exact Or.inl h2
          · exact Or.inr ⟨rfl, ih ys zs h1 h2⟩

theorem kfLtB_trichotomy (a b : KF) :
    KF.ltB a b = true ∨ a = b ∨ KF.ltB b a = true := by
  cases a with
  | num qa =>
    cases b with
    | num qb =>
      rcases lt_trichotomy qa qb with h | h | h
      · exact Or.inl (by simp [KF.ltB, h])
      · exact Or.inr (Or.inl (by rw [h]))
      · exact Or.inr (Or.inr (by simp [KF.ltB, h]))
    | str _ => exact Or.inl rfl
  | str sa =>
    cases b with
    | num _ => exact Or.inr (Or.inr rfl)
    | str sb =>
      rcases strLtB_trichotomy sa.data sb.data with h | h | h
      · exact Or.inl (by simpa [KF.ltB] using h)
      · refine Or.inr (Or.inl ?_)
        have : sa = sb := by
          cases sa; cases sb; exact congrArg String.mk h
        rw [this]
      · exact Or.inr (Or.inr (by simpa [KF.ltB] using h))

theorem kfLtB_irrefl (a : KF) : KF.ltB a a = false := by
  cases a with
  | num q => simp [KF.ltB]
  | str s => simp [KF.ltB, strLtB_irrefl]

theorem kfLtB_asymm (a b : KF) (h1 : KF.ltB a b = true) (h2 : KF.ltB b a = true) :
    False := by
  cases a <;> cases b <;> simp only [KF.ltB, decide_eq_true_eq] at h1 h2
  · exact absurd h2 (not_lt.mpr (le_of_lt h1))
  · simp at h2
  · simp at h1
  · exact strLtB_asymm _ _ h1 h2

theorem kfLtB_trans (a b c : KF) (h1 : KF.ltB a b = true) (h2 : KF.ltB b c = true) :
    KF.ltB a c = true := by
  cases a <;> cases b <;> cases c <;>
    simp only [KF.ltB, decide_eq_true_eq] at h1 h2 ⊢ <;>
    first
      | exact lt_trans h1 h2
      | exact strLtB_trans _ _ _ h1 h2
      | trivial

theorem keyLtB_trichotomy (k1 k2 : List KF) :
    keyLtB k1 k2 = true ∨ k1 = k2 ∨ keyLtB k2 k1 = true := by
  induction k1 generalizing k2 with
  | nil => cases k2 <;> simp [keyLtB]
  | cons x xs ih =>
    cases k2 with
    | nil => simp [keyLtB]
    | cons y ys =>
      rcases kfLtB_trichotomy x y with h | h | h
      · exact Or.inl (by simp [keyLtB, h])
      · subst h
        rcases ih ys with h' | h' | h'
        · exact Or.inl (by simp [keyLtB, h'])
        · exact Or.inr (Or.inl (by rw [h']))
        · exact Or.inr (Or.inr (by simp [keyLtB, h']))
      · exact Or.inr (Or.inr (by simp [keyLtB, h]))

theorem keyLtB_asymm (k1 k2 : List KF) (h1 : keyLtB k1 k2 = true)
    (h2 : keyLtB k2 k1 = true) : False := by
  induction k1 generalizing k2 with
  | nil => cases k2 <;> simp [keyLtB] at h1 h2
  | cons x xs ih =>
    cases k2 with
    | nil => simp [keyLtB] at h1
    | cons y ys =>
      simp only [keyLtB, Bool.or_eq_true, Bool.and_eq_true, beq_iff_eq] at h1 h2
      rcases h1 with h1 | ⟨hxy, h1⟩
      · rcases h2 with h2 | ⟨hyx, h2⟩
        · exact kfLtB_asymm _ _ h1 h2
        · subst hyx
          exact absurd h1 (by simp [kfLtB_irrefl])
      · subst hxy
        rcases h2 with h2 | ⟨-, h2⟩
        · exact absurd h2 (by simp [kfLtB_irrefl])
        · exact ih ys h1 h2

theorem keyLtB_trans (k1 k2 k3 : List KF) (h1 : keyLtB k1 k2 = true)
    (h2 : keyLtB k2 k3 = true) : keyLtB k1 k3 = true := by
  induction k1 generalizing k2 k3 with
  | nil =>
    cases k2 with
    | nil => simp [keyLtB] at h1
    | cons y ys => cases k3 with
      | nil => simp [keyLtB] at h2
      | cons z zs => simp [keyLtB]
  | cons x xs ih =>
    cases k2 with
    | nil => simp [keyLtB] at h1
    | cons y ys =>
      cases k3 with
      | nil => simp [keyLtB] at h2
      | cons z zs =>
        simp only [keyLtB, Bool.or_eq_true, Bool.and_eq_true, beq_iff_eq] at h1 h2 ⊢
        rcases h1 with h1 | ⟨rfl, h1⟩
        · rcases h2 with h2 | ⟨rfl, h2⟩
          · exact Or.inl (kfLtB_trans _ _ _ h1 h2)
          · exact Or.inl h1
        · rcases h2 with h2 | ⟨rfl, h2⟩
          · exact Or.inl h2
          · exact Or.inr ⟨rfl, ih ys zs h1 h2⟩

/-! ### Stable sort: permutation and sortedness -/

theorem insertOrd_perm (le : α → α → Bool) (x : α) (l : List α) :
    (insertOrd le x l).Perm (x :: l) := by
  induction l with
  | nil => exact List.Perm.refl _
  | cons y ys ih =>
    rw [insertOrd]
    split_ifs with h
    · exact ((ih.cons y).trans (List.Perm.swap x y ys))
    · exact List.Perm.refl _

theorem stableSort_fold_perm (le : α → α → Bool) (l acc : List α) :
    (l.foldl (fun a x => insertOrd le x a) acc).Perm (acc ++ l) := by
  induction l generalizing acc with
  | nil => simp
  | cons x xs ih =>
    rw [List.foldl_cons]
    refine (ih (insertOrd le x acc)).trans ?_
    refine (List.Perm.append_right xs (insertOrd_perm le x acc)).trans ?_
    simpa using (@List.perm_middle _ x acc xs).symm

theorem stableSort_perm (le : α → α → Bool) (l : List α) :
    (stableSort le l).Perm l := by
  simpa [stableSort] using stableSort_fold_perm le l []

theorem insertOrd_pairwise (le : α → α → Bool)
    (htot : ∀ a b, le a b = true ∨ le b a = true)
    (htrans : ∀ a b c, le a b = true → le b c = true → le a c = true)
    (x : α) (l : List α) (h : l.Pairwise (fun a b => le a b = true)) :
    (insertOrd le x l).Pairwise (fun a b => le a b = true) := by
  induction l with
  | nil => simp [insertOrd]
  | cons y ys ih =>
    rw [List.pairwise_cons] at h
    rw [insertOrd]
    split_ifs with hle
    · rw [List.pairwise_cons]
      refine ⟨?_, ih h.2⟩
      intro z hz
      have hz' := (insertOrd_perm le x ys).mem_iff.mp hz
      rcases List.mem_cons.mp hz' with rfl | hz''
      · exact hle
      · exact h.1 z hz''
    · have hxy : le x y = true := by
        rcases htot x y with h' | h'
        · exact h'
        · exact absurd h' (by simpa using hle)
      rw [List.pairwise_cons]
      refine ⟨?_, List.pairwise_cons.mpr h⟩
      intro z hz
      rcases List.mem_cons.mp hz with rfl | hz'
      · exact hxy
      · exact htrans x y z hxy (h.1 z hz')

theorem stableSort_fold_pairwise (le : α → α → Bool)
    (htot : ∀ a b, le a b = true ∨ le b a = true)
    (htrans : ∀ a b c, le a b = true → le b c = true → le a c = true)
    (l acc : List α) (hacc : acc.Pairwise (fun a b => le a b = true)) :
    (l.foldl (fun a x => insertOrd le x a) acc).Pairwise (fun a b => le a b = true) := by
  induction l generalizing acc with
  | nil => simpa
  | cons x xs ih =>
    rw [List.foldl_cons]
    exact ih _ (insertOrd_pairwise le htot htrans x acc hacc)

theorem stableSort_pairwise (le : α → α → Bool)
    (htot : ∀ a b, le a b = true ∨ le b a = true)
    (htrans : ∀ a b c, le a b = true → le b c = true → le a c = true)
    (l : List α) :
    (stableSort le l).Pairwise (fun a b => le a b = true) :=
  stableSort_fold_pairwise le htot htrans l [] (by simp)

/-! ### `primaryLe` is total and transitive, and sorted permutations with
distinct keys agree -/

theorem primaryLe_total (a b : Scored) : primaryLe a b = true ∨ primaryLe b a = true := by
  by_contra h
  push_neg at h
  simp only [primaryLe, Bool.not_eq_true, Bool.not_eq_eq_eq_not, Bool.not_true,
    Bool.not_eq_false] at h
  exact keyLtB_asymm _ _ h.1 h.2

theorem keyLtB_irrefl (k : List KF) : keyLtB k k = false := by
  induction k with
  | nil => rfl
  | cons x xs ih => simp [keyLtB, kfLtB_irrefl, ih]

theorem primaryLe_trans (a b c : Scored) (h1 : primaryLe a b = true)
    (h2 : primaryLe b c = true) : primaryLe a c = true := by
  simp only [primaryLe, Bool.not_eq_true'] at h1 h2 ⊢
  rw [Bool.eq_false_iff]
  intro hca
  rcases keyLtB_trichotomy (primary_sort_key a) (primary_sort_key b) with h | h | h
  · have hcb : keyLtB (primary_sort_key c) (primary_sort_key b) = true :=
      keyLtB_trans _ _ _ hca h
    simp [hcb] at h2
  · rw [← h] at h2
    simp [hca] at h2
  · simp [h] at h1

/-! ### Distinct unique ids force distinct primary sort keys -/

theorem get_tie_breaker_key_getLast (v : VulnData) (m : VulnerabilityMetrics) :
    (get_tie_breaker_key v m).getLast? = some (KF.str (tie_unique_id v)) := rfl

theorem primary_sort_key_ne_of_id_ne (a b : Scored)
    (ha : a.tie_breaker_key = get_tie_breaker_key a.data a.metrics)
    (hb : b.tie_breaker_key = get_tie_breaker_key b.data b.metrics)
    (hid : tie_unique_id a.data ≠ tie_unique_id b.data) :
    primary_sort_key a ≠ primary_sort_key b := by
  intro h
  apply hid
  have h' : a.tie_breaker_key = b.tie_breaker_key := by
    have ht := congrArg List.tail h
    simpa [primary_sort_key] using ht
  have hlast := congrArg List.getLast? h'
  rw [ha, hb, get_tie_breaker_key_getLast, get_tie_breaker_key_getLast] at hlast
  exact KF.str.inj (Option.some.inj hlast)

/-! ### The primary sort of a permuted batch with distinct keys is unchanged -/

theorem primary_sort_eq_of_perm (r1 r2 : List Scored) (hperm : r1.Perm r2)
    (hkeys : r1.Pairwise (fun a b => primary_sort_key a ≠ primary_sort_key b)) :
    primary_sort r1 = primary_sort r2 := by
  have hsym : ∀ {a b : Scored}, primary_sort_key a ≠ primary_sort_key b →
      primary_sort_key b ≠ primary_sort_key a := fun h e => h e.symm
  have hp1 : (primary_sort r1).Perm r1 := stableSort_perm _ _
  have hp2 : (primary_sort r2).Perm r2 := stableSort_perm _ _
  have hk1 : (primary_sort r1).Pairwise (fun a b => primary_sort_key a ≠ primary_sort_key b) :=
    (hp1.pairwise_iff hsym).mpr hkeys
  have hk2 : (primary_sort r2).Pairwise (fun a b => primary_sort_key a ≠ primary_sort_key b) :=
    (hp2.pairwise_iff hsym).mpr ((hperm.pairwise_iff hsym).mp hkeys)
  have hs1 := stableSort_pairwise primaryLe primaryLe_total primaryLe_trans r1
  have hs2 := stableSort_pairwise primaryLe primaryLe_total primaryLe_trans r2
  have upgrade : ∀ l : List Scored, l.Pairwise (fun a b => primaryLe a b = true) →
      l.Pairwise (fun a b => primary_sort_key a ≠ primary_sort_key b) →
      l.Pairwise (fun a b => keyLtB (primary_sort_key a) (primary_sort_key b) = true) := by
    intro l hle hne
    refine (hle.and hne).imp ?_
    rintro a b ⟨hle', hne'⟩
    rcases keyLtB_trichotomy (primary_sort_key a) (primary_sort_key b) with h | h | h
    · exact h
    · exact absurd h hne'
    · simp only [primaryLe, Bool.not_eq_true'] at hle'
      simp [h] at hle'
  haveI : IsAntisymm Scored (fun a b => keyLtB (primary_sort_key a) (primary_sort_key b) = true) :=
    ⟨fun a b h1 h2 => (keyLtB_asymm _ _ h1 h2).elim⟩
  exact List.eq_of_perm_of_sorted (hp1.trans (hperm.trans hp2.symm))
    (upgrade _ hs1 hk1) (upgrade _ hs2 hk2)

/-! ### Non-negativity of the Q1 ingredients and the coupling gates -/

theorem poc_maturity_nonneg (f : ExternalDataFetcher) (c : String) :
    0 ≤ (check_poc_availability f c).poc_maturity := by
  simp only [check_poc_availability]
  split_ifs <;> try decide
  all_goals split <;> (try split_ifs) <;> (try simp only []) <;> decide

theorem q1_env_fit_nonneg (v : VulnData) : 0 ≤ q1_env_fit v := by
  simp only [q1_env_fit]
  split_ifs <;> decide

theorem q1_class_weight_nonneg (ids : List String) : 0 ≤ q1_class_weight ids := by
  simp only [q1_class_weight]
  split_ifs <;> decide

theorem q1_epss_bounds (f : ExternalDataFetcher) (v : VulnData) (hf : FetcherWF f) :
    0 ≤ q1_epss_score f v ∧ 0 ≤ q1_epss_percentile f v := by
  unfold q1_epss_score q1_epss_percentile lookupEpss
  cases hfind : f.epss_data.find? (fun p => p.1 == extract_cve_id v.vulnerability_ids) with
  | none => simp
  | some p =>
    have hm := List.mem_of_find?_eq_some hfind
    have hb := hf p hm
    simp only [Option.map_some, Option.getD_some, Option.map_some, Option.getD]
    simp
    exact ⟨hb.1, hb.2.2.1⟩

theorem calculate_q1_bounds (f : ExternalDataFetcher) (v : VulnData) (hf : FetcherWF f) :
    0 ≤ calculate_q1_exploitability f v ∧ calculate_q1_exploitability f v ≤ 100 := by
  have hpoc := poc_maturity_nonneg f (extract_cve_id v.vulnerability_ids)
  have henv := q1_env_fit_nonneg v
  have hcw := q1_class_weight_nonneg (digitRuns v.cwe)
  obtain ⟨hes, hep⟩ := q1_epss_bounds f v hf
  simp only [calculate_q1_exploitability]
  refine ⟨le_min (by norm_num) ?_, min_le_left _ _⟩
  have c1 : (0:ℚ) ≤ mkRat 5 10 := by decide
  have c2 : (0:ℚ) ≤ mkRat 3 10 := by decide
  have c3 : (0:ℚ) ≤ mkRat 2 10 := by decide
  have c4 : (0:ℚ) ≤ mkRat 1 10 := by decide
  have hbase : (0:ℚ) ≤ mkRat 5 10 * (check_poc_availability f
      (extract_cve_id v.vulnerability_ids)).poc_maturity + mkRat 3 10 * q1_env_fit v
      + mkRat 2 10 * q1_class_weight (digitRuns v.cwe) :=
    add_nonneg (add_nonneg (mul_nonneg c1 hpoc) (mul_nonneg c2 henv)) (mul_nonneg c3 hcw)
  split_ifs with hpos
  · simp only [pyAdd_eq, pyMul_eq]
    exact add_nonneg hbase (add_nonneg (mul_nonneg (by norm_num) hes) (mul_nonneg c4 hep))
  · simp only [pyAdd_eq, pyMul_eq]
    exact hbase

theorem calculate_q2_bounds (v : VulnData) :
    0 ≤ calculate_q2_exposure v ∧ calculate_q2_exposure v ≤ 100 := by
  simp only [calculate_q2_exposure]
  exact ⟨le_min (by norm_num) (le_max_left _ _), min_le_left _ _⟩

theorem calculate_q3_bounds (log10f : ℚ → ℚ) (v : VulnData) :
    0 ≤ calculate_q3_impact log10f v ∧ calculate_q3_impact log10f v ≤ 100 := by
  simp only [calculate_q3_impact]
  exact ⟨le_min (by norm_num) (le_max_left _ _), min_le_left _ _⟩

theorem calculate_q4_bounds (v : VulnData) :
    0 ≤ calculate_q4_fixability v ∧ calculate_q4_fixability v ≤ 100 := by
  simp only [calculate_q4_fixability]
  exact ⟨le_max_left _ _, max_le (by norm_num) (min_le_left _ _)⟩

theorem calculate_q5_bounds (f : ExternalDataFetcher) (v : VulnData) :
    0 ≤ calculate_q5_urgency f v ∧ calculate_q5_urgency f v ≤ 100 := by
  simp only [calculate_q5_urgency]
  exact ⟨le_min (by norm_num) (le_max_left _ _), min_le_left _ _⟩

theorem gate_exploit_nonneg (f : ExternalDataFetcher) (v : VulnData) :
    0 ≤ gate_exploit f v := by
  simp only [gate_exploit]
  split_ifs <;> decide

theorem gate_surface_nonneg (q : ℚ) : 0 ≤ gate_surface q := by
  simp only [gate_surface]
  split_ifs <;> decide

theorem env_factor_nonneg (v : VulnData) : 0 ≤ env_factor v := by
  simp only [env_factor]
  split_ifs <;> decide

theorem occ_amplified_q3_bounds (v : VulnData) {c : ℚ} (h0 : 0 ≤ c) (h1 : c ≤ 100) :
    0 ≤ occ_amplified_q3 v c ∧ occ_amplified_q3 v c ≤ 100 := by
  unfold occ_amplified_q3
  rcases v.nb_occurences with _ | occ
  · exact ⟨h0, h1⟩
  · dsimp only
    split_ifs
    · exact ⟨le_min (by norm_num) (by rw [pyMul_eq]; exact mul_nonneg h0 (by decide)),
        min_le_left _ _⟩
    · exact ⟨le_min (by norm_num) (by rw [pyMul_eq]; exact mul_nonneg h0 (by decide)),
        min_le_left _ _⟩
    · exact ⟨le_min (by norm_num) (by rw [pyMul_eq]; exact mul_nonneg h0 (by decide)),
        min_le_left _ _⟩
    · exact ⟨h0, h1⟩

/-- **C1**: every record with `violates_sla` true ends with a final
`rpi_score` of at least 85, whatever the subscores and whichever of the
management-flag penalties (`risk_accepted`, `is_mitigated`, `false_p`)
applied, because the override `rpi = max(rpi, 85)` runs after the
penalties and the final clamp keeps the lower bound. -/
theorem c1_sla_override_floor (f : ExternalDataFetcher) (log10f : ℚ → ℚ)
    (cfg : ProcessingConfig) (v : VulnData) (h : v.violates_sla = true) :
    85 ≤ (calculate_rpi f log10f cfg v).rpi_score := by
  simp only [calculate_rpi]
  rw [if_pos h]
  exact le_trans (le_min (by norm_num) (le_max_right _ _)) (le_max_right _ _)

theorem c1_sla_override_floor_w :
    recSLA.violates_sla = true ∧
      85 ≤ (calculate_rpi fetcher0 log10c cfg_default recSLA).rpi_score :=
  ⟨rfl, c1_sla_override_floor fetcher0 log10c cfg_default recSLA rfl⟩

/-- **C2**: for every record (under a well-formed EPSS cache), the five
coupled subscores stored in the metrics and the final `rpi_score` all lie
in `[0, 100]`. -/
theorem c2_metrics_within_range (f : ExternalDataFetcher) (log10f : ℚ → ℚ)
    (cfg : ProcessingConfig) (v : VulnData) (hf : FetcherWF f) :
    (0 ≤ (calculate_rpi f log10f cfg v).q1_exploitability ∧
      (calculate_rpi f log10f cfg v).q1_exploitability ≤ 100) ∧
    (0 ≤ (calculate_rpi f log10f cfg v).q2_exposure ∧
      (calculate_rpi f log10f cfg v).q2_exposure ≤ 100) ∧
    (0 ≤ (calculate_rpi f log10f cfg v).q3_impact ∧
      (calculate_rpi f log10f cfg v).q3_impact ≤ 100) ∧
    (0 ≤ (calculate_rpi f log10f cfg v).q4_fixability ∧
      (calculate_rpi f log10f cfg v).q4_fixability ≤ 100) ∧
    (0 ≤ (calculate_rpi f log10f cfg v).q5_urgency ∧
      (calculate_rpi f log10f cfg v).q5_urgency ≤ 100) ∧
    (0 ≤ (calculate_rpi f log10f cfg v).rpi_score ∧
      (calculate_rpi f log10f cfg v).rpi_score ≤ 100) := by
  obtain ⟨h1l, _⟩ := calculate_q1_bounds f v hf
  obtain ⟨h2l, _⟩ := calculate_q2_bounds v
  obtain ⟨h3l, _⟩ := calculate_q3_bounds log10f v
  obtain ⟨h4l, h4u⟩ := calculate_q4_bounds v
  have hge := gate_exploit_nonneg f v
  have hgs := gate_surface_nonneg (calculate_q2_exposure v)
  have hfe := env_factor_nonneg v
  have hA : (0:ℚ) ≤ pyAdd (mkRat 7 10) (pyMul (mkRat 3 10) (gate_exploit f v)) := by
    rw [pyAdd_eq, pyMul_eq]
    exact add_nonneg (by decide) (mul_nonneg (by decide) hge)
  have hB : (0:ℚ) ≤ pyAdd (mkRat 8 10)
      (pyMul (mkRat 2 10) (gate_surface (calculate_q2_exposure v))) := by
    rw [pyAdd_eq, pyMul_eq]
    exact add_nonneg (by decide) (mul_nonneg (by decide) hgs)
  simp only [calculate_rpi]
  refine ⟨⟨?_, ?_⟩, ⟨?_, ?_⟩, ?_, ⟨h4l, h4u⟩, ⟨?_, ?_⟩, ⟨?_, ?_⟩⟩
  · exact le_min (by norm_num) (by rw [pyMul_eq]; exact mul_nonneg h1l hgs)
  · exact min_le_left _ _
  · exact le_min (by norm_num) (by rw [pyMul_eq]; exact mul_nonneg h2l hfe)
  · exact min_le_left _ _
  · exact occ_amplified_q3_bounds v
      (le_min (by norm_num) (by rw [pyMul_eq]; exact mul_nonneg h3l hge)) (min_le_left _ _)
  · refine le_min (by norm_num) ?_
    rw [pyMul_eq, pyMul_eq, pyMul_eq]
    exact mul_nonneg (mul_nonneg (mul_nonneg (calculate_q5_bounds f _).1 hA) hB) hfe
  · exact min_le_left _ _
  · exact le_max_left _ _
  · exact max_le (by norm_num) (min_le_left _ _)

theorem c2_metrics_within_range_w :
    FetcherWF fetcher0 ∧
      0 ≤ (calculate_rpi fetcher0 log10c cfg_default recPlain).rpi_score ∧
      (calculate_rpi fetcher0 log10c cfg_default recPlain).rpi_score ≤ 100 := by
  have hf : FetcherWF fetcher0 := fun p hp => nomatch hp
  exact ⟨hf, (c2_metrics_within_range fetcher0 log10c cfg_default recPlain hf).2.2.2.2.2⟩

/-- **C3**: the tie-break comparison is a strict total order (trichotomy,
irreflexivity, asymmetry, transitivity of `keyLtB`), and records whose
unique identifiers differ get distinct primary sort keys, so the primary
sort by (RPI descending, tie-break key ascending) never compares two
distinct records as equal. -/
theorem c3_tie_break_strict_total_order :
    (∀ a b : Scored,
        a.tie_breaker_key = get_tie_breaker_key a.data a.metrics →
        b.tie_breaker_key = get_tie_breaker_key b.data b.metrics →
        tie_unique_id a.data ≠ tie_unique_id b.data →
        primary_sort_key a ≠ primary_sort_key b) ∧
    (∀ k1 k2 : List KF, keyLtB k1 k2 = true ∨ k1 = k2 ∨ keyLtB k2 k1 = true) ∧
    (∀ k : List KF, keyLtB k k = false) ∧
    (∀ k1 k2 : List KF, keyLtB k1 k2 = true → keyLtB k2 k1 = true → False) ∧
    (∀ k1 k2 k3 : List KF, keyLtB k1 k2 = true → keyLtB k2 k3 = true →
        keyLtB k1 k3 = true) :=
  ⟨primary_sort_key_ne_of_id_ne, keyLtB_trichotomy, keyLtB_irrefl, keyLtB_asymm, keyLtB_trans⟩

theorem c3_tie_break_strict_total_order_w :
    tie_unique_id recT1 ≠ tie_unique_id recT2 ∧ primary_sort_key scT1 ≠ primary_sort_key scT2 :=
  ⟨by decide, c3_tie_break_strict_total_order.1 scT1 scT2 rfl rfl (by decide)⟩

/-- **C6** (code bug): the weight validation `ProcessingConfig.validate`
is never called, so a configuration whose five weights sum to 2.5 (far
outside 1.0 ± 0.01) fails the check yet the pipeline still processes a
batch normally instead of aborting at startup. -/
theorem c6_invalid_weights_still_processed :
    cfgBadWeights.validateOk = false ∧
      (process_vulnerabilities fetcher0 log10c sqrt0 cfgBadWeights [recC6]).length = 1 := by
  constructor
  · decide
  · decide

/-- **C10**: when the raw EPSS score signal is exactly 0, Q1 is exactly
`min(100, 0.5*poc_maturity + 0.3*env_fit + 0.2*class_weight)`: the EPSS
percentile, however large, contributes nothing, because the bonus
`20*epss + 0.1*percentile` is only added when the score is strictly
positive. -/
theorem c10_zero_epss_adds_nothing (f : ExternalDataFetcher) (v : VulnData)
    (h : q1_epss_score f v = 0) :
    calculate_q1_exploitability f v =
      min 100 ((5/10) * (check_poc_availability f
          (extract_cve_id v.vulnerability_ids)).poc_maturity
        + (3/10) * q1_env_fit v + (2/10) * q1_class_weight (digitRuns v.cwe)) := by
  simp only [calculate_q1_exploitability, h]
  rw [if_neg (lt_irrefl (0:ℚ))]
  rw [pyAdd_eq, pyAdd_eq, pyMul_eq, pyMul_eq, pyMul_eq]
  norm_num [Rat.mkRat_eq_div]

theorem c10_zero_epss_adds_nothing_w :
    q1_epss_score fetcherEps recEps = 0 ∧
      calculate_q1_exploitability fetcherEps recEps =
        min 100 ((5/10) * (check_poc_availability fetcherEps
            (extract_cve_id recEps.vulnerability_ids)).poc_maturity
          + (3/10) * q1_env_fit recEps + (2/10) * q1_class_weight (digitRuns recEps.cwe)) :=
  ⟨by decide, c10_zero_epss_adds_nothing fetcherEps recEps (by decide)⟩

/-- **C9**: the coupling stage computes `g_exploit` as 1.20 for KEV, else
1.15 for PoC, else 1.10 for EPSS ≥ 0.50, else 1.05 for EPSS ≥ 0.20, else
1.00, and stores `Q1' = min(100, Q1*g_surface)`, `Q2' = min(100, Q2*f_env)`,
`Q3' = min(100, Q3*g_exploit)` further amplified by ×1.15/×1.3/×1.5 when
occurrences exceed 10/50/100, `Q4' = Q4` unchanged, and
`Q5' = min(100, Q5*(0.7+0.3*g_exploit)*(0.8+0.2*g_surface)*f_env)`, the Q5
base being computed on the record with Q1..Q4 and `is_runtime` injected. -/
theorem c9_coupling_formulas (f : ExternalDataFetcher) (log10f : ℚ → ℚ)
    (cfg : ProcessingConfig) (v : VulnData) :
    gate_exploit f v = (if rawKev f v then (120/100 : ℚ) else if rawPoc f v then 115/100
      else if (50/100 : ℚ) ≤ rawEpssScore f v then 110/100
      else if (20/100 : ℚ) ≤ rawEpssScore f v then 105/100 else 1) ∧
    gate_surface (calculate_q2_exposure v) =
      (if 80 ≤ calculate_q2_exposure v then (115/100 : ℚ)
       else if 60 ≤ calculate_q2_exposure v then 108/100 else 95/100) ∧
    (calculate_rpi f log10f cfg v).q1_exploitability =
      min 100 (calculate_q1_exploitability f v * gate_surface (calculate_q2_exposure v)) ∧
    (calculate_rpi f log10f cfg v).q2_exposure =
      min 100 (calculate_q2_exposure v * env_factor v) ∧
    (calculate_rpi f log10f cfg v).q3_impact =
      (match v.nb_occurences with
       | none => min 100 (calculate_q3_impact log10f v * gate_exploit f v)
       | some occ =>
         if 100 < occ then
           min 100 (min 100 (calculate_q3_impact log10f v * gate_exploit f v) * (150/100))
         else if 50 < occ then
           min 100 (min 100 (calculate_q3_impact log10f v * gate_exploit f v) * (130/100))
         else if 10 < occ then
           min 100 (min 100 (calculate_q3_impact log10f v * gate_exploit f v) * (115/100))
         else min 100 (calculate_q3_impact log10f v * gate_exploit f v)) ∧
    (calculate_rpi f log10f cfg v).q4_fixability = calculate_q4_fixability v ∧
    (calculate_rpi f log10f cfg v).q5_urgency =
      min 100 (calculate_q5_urgency f
          { v with q1_exploitability := some (calculate_q1_exploitability f v),
                   q2_exposure := some (calculate_q2_exposure v),
                   q3_impact := some (calculate_q3_impact log10f v),
                   q4_fixability := some (calculate_q4_fixability v),
                   is_runtime := some (is_runtime_dependency v) }
        * ((70/100 : ℚ) + (30/100) * gate_exploit f v)
        * ((80/100 : ℚ) + (20/100) * gate_surface (calculate_q2_exposure v))
        * env_factor v) := by
  refine ⟨?_, ?_, ?_, ?_, ?_, ?_, ?_⟩
  · simp only [gate_exploit]
    norm_num [Rat.mkRat_eq_div]
  · simp only [gate_surface]
    norm_num [Rat.mkRat_eq_div]
  · simp only [calculate_rpi, pyMul_eq]
  · simp only [calculate_rpi, pyMul_eq]
  · simp only [calculate_rpi, occ_amplified_q3, pyMul_eq]
    rcases v.nb_occurences with _ | occ
    · rfl
    · dsimp only
      norm_num [Rat.mkRat_eq_div]
  · simp only [calculate_rpi]
  · simp only [calculate_rpi, pyMul_eq, pyAdd_eq]
    norm_num [Rat.mkRat_eq_div]

/-! ### C5: the duplicate-batch scenario -/

/-- **C5 counterexample**: deduplicating the two-copy batch overwrites
`nb_occurences` with the duplicate count 2, so the resulting record's Q3
occurrence amplifier is the `1 + 0.2*log10(occ)` branch (1.06 for
`log10(2) = 0.3`), not the ≥100-occurrence ×2.0 tier the claim names. -/
theorem c5_dedup_kills_occurrence_tier :
    deduplicate_vulnerabilities [recC5A, recC5A] = [recC5dedup] ∧
    recC5dedup.nb_occurences = some 2 ∧
    q3_occurrence_multiplier log10c 2 = mkRat 106 100 ∧
    q3_occurrence_multiplier log10c 2 ≠ 2 := by
  refine ⟨by decide, by decide, by decide, by decide⟩

/-- **C5 (amended)**: for the two-copy batch of the 9.8-CVSS, 150-occurrence
database record, deduplication yields the single record with
`nb_occurences = 2`; the Q3 for that record classifies the component as
`database` (×1.4 domain multiplier) and uses the `1 + 0.2*log10(2)`
occurrence amplifier, which already saturates Q3 at 100 for any
non-negative `log10(2)`. -/
theorem c5_duplicate_batch_scenario (log10f : ℚ → ℚ) (h2 : 0 ≤ log10f 2) :
    deduplicate_vulnerabilities [recC5A, recC5A] = [recC5dedup] ∧
    classify_domain recC5dedup = "database" ∧
    q3_domain_multipliers (classify_domain recC5dedup) = mkRat 14 10 ∧
    calculate_q3_impact log10f recC5dedup = 100 := by
  refine ⟨by decide, by decide, by decide, ?_⟩
  have hdom : q3_domain_multipliers (classify_domain recC5dedup) = mkRat 14 10 := by decide
  have hsen : q3_sensitivity_count recC5dedup = 0 := by decide
  simp only [calculate_q3_impact, hsen, hdom]
  norm_num [recC5dedup, recC5A]
  simp only [q3_occurrence_multiplier, pyAdd_eq, pyMul_eq, pyMul_eq]
  norm_num [Rat.mkRat_eq_div]
  nlinarith [h2]

theorem c5_duplicate_batch_scenario_w :
    0 ≤ log10c 2 ∧ calculate_q3_impact log10c recC5dedup = 100 :=
  ⟨by decide, (c5_duplicate_batch_scenario log10c (by decide)).2.2.2⟩

/-! ### C8: order sensitivity of the result stage -/

/-- **C8 counterexample**: two records that differ only in
`component_version` (outside the tie-break key) carry identical sort keys,
so the stable primary sort preserves whichever completion order the worker
pool happened to produce, and the pipeline tail emits different orderings
for the two arrival orders. -/
theorem c8_completion_order_leaks :
    process_results cfg_default sqrt0 [scX1, scX2] ≠
      process_results cfg_default sqrt0 [scX2, scX1] := by
  decide

/-- **C8 (amended)**: the result stage is deterministic on every batch whose
records carry their own tie-break keys and pairwise distinct unique ids:
any two completion orders of the same scored records produce the same final
list. -/
theorem c8_deterministic_given_distinct_ids (cfg : ProcessingConfig) (sqrtf : ℚ → ℚ)
    (r1 r2 : List Scored) (hperm : r1.Perm r2)
    (hwf : ∀ s ∈ r1, s.tie_breaker_key = get_tie_breaker_key s.data s.metrics)
    (hids : r1.Pairwise (fun a b => tie_unique_id a.data ≠ tie_unique_id b.data)) :
    process_results cfg sqrtf r1 = process_results cfg sqrtf r2 := by
  have hkeys : r1.Pairwise (fun a b => primary_sort_key a ≠ primary_sort_key b) := by
    refine List.Pairwise.imp_of_mem ?_ hids
    intro a b ha hb hid
    exact primary_sort_key_ne_of_id_ne a b (hwf a ha) (hwf b hb) hid
  unfold process_results
  rw [primary_sort_eq_of_perm r1 r2 hperm hkeys]

theorem c8_deterministic_given_distinct_ids_w :
    [scT1, scT2].Perm [scT2, scT1] ∧
      process_results cfg_default sqrt0 [scT1, scT2] =
        process_results cfg_default sqrt0 [scT2, scT1] := by
  refine ⟨List.Perm.swap scT2 scT1 [], ?_⟩
  refine c8_deterministic_given_distinct_ids cfg_default sqrt0 _ _
    (List.Perm.swap scT2 scT1 []) ?_ ?_
  · intro s hs
    simp only [List.mem_cons, List.not_mem_nil, or_false] at hs
    rcases hs with rfl | rfl <;> rfl
  · decide

/-! ### C4: characterization of the deduplicator -/

theorem dk_beq_iff (a b : DedupKey) : ((a == b) = true) ↔ a = b := by
  cases a with
  | inl s =>
    cases b with
    | inl t =>
      rw [show ((Sum.inl s : DedupKey) == Sum.inl t) = (s == t) from rfl]
      simp
    | inr n =>
      rw [show ((Sum.inl s : DedupKey) == Sum.inr n) = false from rfl]
      simp
  | inr m =>
    cases b with
    | inl t =>
      rw [show ((Sum.inr m : DedupKey) == Sum.inl t) = false from rfl]
      simp
    | inr n =>
      rw [show ((Sum.inr m : DedupKey) == Sum.inr n) = (m == n) from rfl]
      simp

theorem dk_beq_self (a : DedupKey) : (a == a) = true := (dk_beq_iff a a).mpr rfl

theorem dk_beq_false {a b : DedupKey} (h : ¬ a = b) : (a == b) = false := by
  cases hq : (a == b)
  · rfl
  · exact absurd ((dk_beq_iff a b).mp hq) h

theorem beq_comm_dk (a b : DedupKey) : (a == b) = (b == a) := by
  by_cases h : a = b
  · subst h; rfl
  · rw [dk_beq_false h, dk_beq_false (Ne.symm h)]

theorem contains_append_singleton (s : List DedupKey) (k x : DedupKey) :
    (s ++ [k]).contains x = (x == k || s.contains x) := by
  induction s with
  | nil => simp [List.contains_cons]
  | cons a as ih =>
    simp only [List.cons_append, List.contains_cons, ih]
    rw [Bool.or_left_comm]

theorem contains_map_fst (uniq : List (DedupKey × VulnData)) (k : DedupKey) :
    (uniq.map Prod.fst).contains k = uniq.any (fun p => p.1 == k) := by
  induction uniq with
  | nil => rfl
  | cons p ps ih =>
    simp only [List.map_cons, List.contains_cons, List.any_cons, ih]
    rw [beq_comm_dk]

theorem first_occurrences_congr (rest : List (ℕ × VulnData)) :
    ∀ s1 s2 : List DedupKey, (∀ x, s1.contains x = s2.contains x) →
      first_occurrences s1 rest = first_occurrences s2 rest := by
  induction rest with
  | nil => intro s1 s2 _; rfl
  | cons iv rest ih =>
    intro s1 s2 hs
    obtain ⟨i, v⟩ := iv
    simp only [first_occurrences]
    rw [hs (dedup_key i v)]
    split_ifs with h
    · exact ih s1 s2 hs
    · have hs' : ∀ x, (dedup_key i v :: s1).contains x =
          (dedup_key i v :: s2).contains x := by
        intro x
        simp [List.contains_cons, hs x]
      rw [ih _ _ hs']

theorem dedup_pass_uniq (rest : List (ℕ × VulnData)) :
    ∀ counts uniq, (dedup_pass rest counts uniq).2 =
      uniq ++ first_occurrences (uniq.map Prod.fst) rest := by
  induction rest with
  | nil => intro counts uniq; simp [dedup_pass, first_occurrences]
  | cons iv rest ih =>
    intro counts uniq
    obtain ⟨i, v⟩ := iv
    simp only [dedup_pass]
    rw [ih]
    simp only [first_occurrences, add_unique]
    rw [← contains_map_fst]
    split_ifs with h
    · rfl
    · rw [List.append_assoc]
      simp only [List.singleton_append]
      congr 1
      congr 1
      apply first_occurrences_congr
      intro x
      simp only [List.map_append, List.map_cons, List.map_nil]
      rw [contains_append_singleton, List.contains_cons]

theorem count_val_cons (k0 : DedupKey) (n : ℕ) (rest : List (DedupKey × ℕ))
    (k : DedupKey) :
    count_val ((k0, n) :: rest) k = if k0 = k then n else count_val rest k := by
  by_cases h : k0 = k
  · subst h
    simp [count_val, List.find?_cons, dk_beq_self]
  · simp [count_val, List.find?_cons, dk_beq_false h, h]

theorem count_val_bump (counts : List (DedupKey × ℕ)) (k k' : DedupKey) :
    count_val (bump_count counts k) k' =
      count_val counts k' + (if k = k' then 1 else 0) := by
  induction counts with
  | nil =>
    by_cases h : k = k'
    · subst h
      simp [bump_count, count_val, List.find?_cons, List.find?_nil, dk_beq_self]
    · simp [bump_count, count_val, List.find?_cons, List.find?_nil, dk_beq_false h, h]
  | cons p rest ih =>
    obtain ⟨k0, n⟩ := p
    by_cases hk : k0 = k
    · subst hk
      rw [show bump_count ((k0, n) :: rest) k0 = (k0, n + 1) :: rest from by
        simp [bump_count, dk_beq_self]]
      rw [count_val_cons, count_val_cons]
      by_cases h : k0 = k'
      · simp [h]
      · simp [h]
    · rw [show bump_count ((k0, n) :: rest) k = (k0, n) :: bump_count rest k from by
        simp [bump_count, dk_beq_false hk]]
      rw [count_val_cons, count_val_cons, ih]
      by_cases h : k0 = k'
      · have hkk : ¬ k = k' := fun e => hk (h.trans e.symm)
        simp [h, hkk]
      · simp [h]

theorem key_count_cons (i : ℕ) (v : VulnData) (rest : List (ℕ × VulnData))
    (k : DedupKey) :
    key_count ((i, v) :: rest) k =
      (if dedup_key i v = k then 1 else 0) + key_count rest k := by
  by_cases h : dedup_key i v = k
  · simp [key_count, List.filter_cons, h, dk_beq_self]
    omega
  · simp [key_count, List.filter_cons, dk_beq_false h, h]

theorem dedup_pass_counts (rest : List (ℕ × VulnData)) :
    ∀ counts uniq k, count_val (dedup_pass rest counts uniq).1 k =
      count_val counts k + key_count rest k := by
  induction rest with
  | nil => intro counts uniq k; simp [dedup_pass, key_count]
  | cons iv rest ih =>
    intro counts uniq k
    obtain ⟨i, v⟩ := iv
    simp only [dedup_pass]
    rw [ih, count_val_bump, key_count_cons]
    by_cases h : dedup_key i v = k
    · simp only [h, if_pos rfl]
      omega
    · simp only [if_neg h]
      omega

theorem first_occurrences_key_count (rest : List (ℕ × VulnData)) :
    ∀ seen kv, kv ∈ first_occurrences seen rest → 1 ≤ key_count rest kv.1 := by
  induction rest with
  | nil => intro seen kv h; simp [first_occurrences] at h
  | cons iv rest ih =>
    intro seen kv h
    obtain ⟨i, v⟩ := iv
    simp only [first_occurrences] at h
    rw [key_count_cons]
    split_ifs at h with hseen
    · have := ih seen kv h
      omega
    · rcases List.mem_cons.mp h with rfl | h2
      · simp
      · have := ih _ kv h2
        omega

theorem first_occurrences_nodup (rest : List (ℕ × VulnData)) :
    ∀ seen, (∀ x ∈ (first_occurrences seen rest).map Prod.fst,
        seen.contains x = false) ∧
      ((first_occurrences seen rest).map Prod.fst).Nodup := by
  induction rest with
  | nil => intro seen; simp [first_occurrences]
  | cons iv rest ih =>
    intro seen
    obtain ⟨i, v⟩ := iv
    simp only [first_occurrences]
    split_ifs with hseen
    · exact ih seen
    · refine ⟨?_, ?_⟩
      · intro x hx
        simp only [List.map_cons, List.mem_cons] at hx
        rcases hx with rfl | hx
        · simpa using hseen
        · have h2 := (ih (dedup_key i v :: seen)).1 x hx
          simp only [List.contains_cons] at h2
          exact (Bool.or_eq_false_iff.mp h2).2
      · simp only [List.map_cons, List.nodup_cons]
        refine ⟨?_, (ih _).2⟩
        intro hmem
        have h2 := (ih (dedup_key i v :: seen)).1 _ hmem
        simp [List.contains_cons, dk_beq_self] at h2

/-- **C4**: the deduplicator maps each identity class to exactly one output
record — the class's first occurrence — whose `nb_occurences` is overwritten
with the number of raw records in the class; the keys of the retained
records are pairwise distinct, and the empty input yields the empty output
(the function is total, so no input raises). -/
theorem c4_dedup_first_occurrence_with_counts (l : List VulnData) :
    deduplicate_vulnerabilities l =
      (first_occurrences [] l.enum).map
        (fun kv => { kv.2 with nb_occurences := some (mkRat (key_count l.enum kv.1) 1) }) ∧
    deduplicate_vulnerabilities ([] : List VulnData) = [] ∧
    ((first_occurrences [] l.enum).map Prod.fst).Nodup := by
  refine ⟨?_, rfl, (first_occurrences_nodup l.enum []).2⟩
  simp only [deduplicate_vulnerabilities]
  rw [dedup_pass_uniq]
  simp only [List.map_nil, List.nil_append]
  apply List.map_congr_left
  intro kv hkv
  have h1 := first_occurrences_key_count l.enum [] kv hkv
  have h2 : count_val (dedup_pass l.enum [] []).1 kv.1 = key_count l.enum kv.1 := by
    rw [dedup_pass_counts]
    simp [count_val]
  have h3 : count_lookup (dedup_pass l.enum [] []).1 kv.1 = key_count l.enum kv.1 := by
    unfold count_lookup
    unfold count_val at h2
    cases hf : (dedup_pass l.enum [] []).1.find? (fun p => p.1 == kv.1) with
    | none =>
      rw [hf] at h2
      simp at h2 ⊢
      omega
    | some p =>
      rw [hf] at h2
      simp at h2 ⊢
      exact h2
  rw [h3]

/-! ### C7: the funnel is a frame-preserving reorder of one group -/

theorem foldl_set_length (ps : List (ℕ × Scored)) :
    ∀ h : List Scored, (ps.foldl (fun h q => h.set q.1 q.2) h).length = h.length := by
  induction ps with
  | nil => intro h; rfl
  | cons p ps ih =>
    intro h
    rw [List.foldl_cons, ih]
    exact List.length_set h p.1 p.2

theorem foldl_set_untouched (ps : List (ℕ × Scored)) :
    ∀ (h : List Scored) (j : ℕ), (∀ p ∈ ps, p.1 ≠ j) →
      (ps.foldl (fun h q => h.set q.1 q.2) h)[j]? = h[j]? := by
  induction ps with
  | nil => intro h j _; rfl
  | cons p ps ih =>
    intro h j hne
    rw [List.foldl_cons, ih _ _ (fun q hq => hne q (List.mem_cons_of_mem _ hq))]
    exact List.getElem?_set_ne (hne p (List.mem_cons_self _ _))

theorem foldl_set_get (ps : List (ℕ × Scored)) :
    ∀ h : List Scored, (ps.map Prod.fst).Nodup → (∀ p ∈ ps, p.1 < h.length) →
      ∀ p ∈ ps, (ps.foldl (fun h q => h.set q.1 q.2) h)[p.1]? = some p.2 := by
  induction ps with
  | nil => intro h _ _ p hp; cases hp
  | cons q ps ih =>
    intro h hnd hb p hp
    rw [List.map_cons, List.nodup_cons] at hnd
    rw [List.foldl_cons]
    rcases List.mem_cons.mp hp with rfl | hp2
    · rw [foldl_set_untouched ps _ p.1 ?hne]
      · exact List.getElem?_set_self (hb p (List.mem_cons_self _ _))
      · intro r hr he
        exact hnd.1 (he ▸ List.mem_map_of_mem Prod.fst hr)
    · refine ih _ hnd.2 ?_ p hp2
      intro r hr
      rw [List.length_set]
      exact hb r (List.mem_cons_of_mem _ hr)

theorem splice_at_length (head : List Scored) (idxs : List ℕ) (blk : List Scored) :
    (splice_at head idxs blk).length = head.length :=
  foldl_set_length (idxs.zip blk) head

theorem splice_at_untouched (head : List Scored) (idxs : List ℕ) (blk : List Scored)
    (j : ℕ) (hj : j ∉ idxs) : (splice_at head idxs blk)[j]? = head[j]? := by
  refine foldl_set_untouched (idxs.zip blk) head j ?_
  intro p hp he
  exact hj (he ▸ (List.of_mem_zip hp).1)

theorem splice_at_get (head : List Scored) (idxs : List ℕ) (blk : List Scored)
    (hnd : idxs.Nodup) (hlen : blk.length = idxs.length)
    (hb : ∀ i ∈ idxs, i < head.length) :
    ∀ p ∈ idxs.zip blk, (splice_at head idxs blk)[p.1]? = some p.2 := by
  refine foldl_set_get (idxs.zip blk) head ?_ ?_
  · rw [List.map_fst_zip idxs blk (le_of_eq hlen.symm)]
    exact hnd
  · intro p hp
    exact hb p.1 (List.of_mem_zip hp).1

theorem filterMap_of_pairs {α : Type} (idxs : List ℕ) (blk : List α) (g : ℕ → Option α)
    (hlen : idxs.length = blk.length)
    (hp : ∀ p ∈ idxs.zip blk, g p.1 = some p.2) :
    idxs.filterMap g = blk := by
  induction idxs generalizing blk with
  | nil =>
    cases blk with
    | nil => rfl
    | cons b bs => simp at hlen
  | cons i is ih =>
    cases blk with
    | nil => simp at hlen
    | cons b bs =>
      rw [List.filterMap_cons, hp (i, b) (by simp [List.zip_cons_cons])]
      rw [ih bs (by simpa using hlen) (fun q hq => hp q (by simp [List.zip_cons_cons, hq]))]

theorem filterMap_getElem_length (head : List Scored) (idxs : List ℕ)
    (hb : ∀ i ∈ idxs, i < head.length) :
    (idxs.filterMap (fun i => head[i]?)).length = idxs.length := by
  induction idxs with
  | nil => rfl
  | cons i is ih =>
    rw [List.filterMap_cons,
      List.getElem?_eq_getElem (hb i (List.mem_cons_self _ _))]
    simp only [List.length_cons]
    rw [ih (fun j hj => hb j (List.mem_cons_of_mem _ hj))]

theorem group_idxs_nodup (head : List Scored) (key : ℚ) : (group_idxs head key).Nodup :=
  (List.nodup_range head.length).filter _

theorem group_idxs_bound (head : List Scored) (key : ℚ) :
    ∀ i ∈ group_idxs head key, i < head.length := by
  intro i hi
  exact List.mem_range.mp (List.mem_filter.mp hi).1

theorem reorder_equal_group_perm (cfg : ProcessingConfig) (sqrtf : ℚ → ℚ)
    (block : List Scored) : (reorder_equal_group cfg sqrtf block).Perm block := by
  unfold reorder_equal_group
  have h1 := stableSort_perm (fun x y => !(blockTupleLt y x))
    (block.map (fun v => (cohort_bucket v, local_topsis_score cfg sqrtf v,
      v.tie_breaker_key, v)))
  have h2 := h1.map (fun t : ℕ × ℚ × List KF × Scored => t.2.2.2)
  simpa [List.map_map, Function.comp_def] using h2

theorem pick_candidate_shape (cfg : ProcessingConfig) (head : List Scored)
    (idxs : List ℕ) (h : pick_candidate cfg head = some idxs) :
    ∃ key, idxs = group_idxs head key ∧ group_qualifies cfg head idxs = true := by
  unfold pick_candidate at h
  suffices H : ∀ (keys : List ℚ) (best : Option (List ℕ)),
      (∀ b, best = some b → ∃ key, b = group_idxs head key ∧
        group_qualifies cfg head b = true) →
      keys.foldl (fun best key =>
        let idxs := group_idxs head key
        if group_qualifies cfg head idxs &&
            (match best with
             | none => true
             | some b => decide (b.length < idxs.length)) then
          some idxs
        else best) best = some idxs →
      ∃ key, idxs = group_idxs head key ∧ group_qualifies cfg head idxs = true by
    exact H (group_keys head) none (fun b hb => nomatch hb) h
  intro keys
  induction keys with
  | nil =>
    intro best hinv hfold
    exact hinv idxs hfold
  | cons k ks ih =>
    intro best hinv hfold
    rw [List.foldl_cons] at hfold
    refine ih _ ?_ hfold
    intro b hb
    dsimp only at hb
    split_ifs at hb with hc
    · obtain rfl : group_idxs head k = b := Option.some.inj hb
      simp only [Bool.and_eq_true] at hc
      exact ⟨k, rfl, hc.1⟩
    · exact hinv b hb

theorem pick_candidate_none (cfg : ProcessingConfig) (head : List Scored)
    (h : ∀ key ∈ group_keys head,
      group_qualifies cfg head (group_idxs head key) = false) :
    pick_candidate cfg head = none := by
  unfold pick_candidate
  suffices H : ∀ keys : List ℚ,
      (∀ key ∈ keys, group_qualifies cfg head (group_idxs head key) = false) →
      keys.foldl (fun best key =>
        let idxs := group_idxs head key
        if group_qualifies cfg head idxs &&
            (match best with
             | none => true
             | some b => decide (b.length < idxs.length)) then
          some idxs
        else best) none = none by
    exact H (group_keys head) h
  intro keys
  induction keys with
  | nil => intro _; rfl
  | cons k ks ih =>
    intro hk
    rw [List.foldl_cons]
    have hz : (if group_qualifies cfg head (group_idxs head k) &&
        (match (none : Option (List ℕ)) with
         | none => true
         | some b => decide (b.length < (group_idxs head k).length)) then
        some (group_idxs head k)
      else (none : Option (List ℕ))) = none := by
      rw [if_neg]
      simp [hk k (List.mem_cons_self _ _)]
    dsimp only
    rw [hz]
    exact ih (fun key hkey => hk key (List.mem_cons_of_mem _ hkey))

theorem funnel_no_candidate (cfg : ProcessingConfig) (sqrtf : ℚ → ℚ) (l : List Scored)
    (h : pick_candidate cfg (l.take (min l.length cfg.top_k_for_funnel)) = none) :
    apply_funneling_if_needed cfg sqrtf l = l := by
  simp only [apply_funneling_if_needed]
  split_ifs with h1 h2
  · rfl
  · rfl
  · rw [h]

/-- **C7**: the funnel re-ranker is a frame-preserving permutation of the
single chosen equal-RPI group: when no group of the head qualifies —
`pick_candidate` yields `none`, in particular when every rounded-score
group fails the size/spread test — the output equals the input; and when a
group `idxs` is chosen, the output keeps the input's length, every position
outside `idxs` (head records not in the group, and the whole tail past
top-K) holds its original record, and the records at the positions of
`idxs` are a permutation of the original records there. -/
theorem c7_funnel_frame (cfg : ProcessingConfig) (sqrtf : ℚ → ℚ) (l : List Scored) :
    (pick_candidate cfg (l.take (min l.length cfg.top_k_for_funnel)) = none →
      apply_funneling_if_needed cfg sqrtf l = l) ∧
    ((∀ key ∈ group_keys (l.take (min l.length cfg.top_k_for_funnel)),
        group_qualifies cfg (l.take (min l.length cfg.top_k_for_funnel))
          (group_idxs (l.take (min l.length cfg.top_k_for_funnel)) key) = false) →
      apply_funneling_if_needed cfg sqrtf l = l) ∧
    (∀ idxs, pick_candidate cfg (l.take (min l.length cfg.top_k_for_funnel)) = some idxs →
      (apply_funneling_if_needed cfg sqrtf l).length = l.length ∧
      (∀ i, i ∉ idxs → (apply_funneling_if_needed cfg sqrtf l)[i]? = l[i]?) ∧
      (idxs.filterMap (fun i => (apply_funneling_if_needed cfg sqrtf l)[i]?)).Perm
        (idxs.filterMap (fun i => l[i]?))) := by
  refine ⟨funnel_no_candidate cfg sqrtf l, ?_, ?_⟩
  · intro hall
    exact funnel_no_candidate cfg sqrtf l (pick_candidate_none cfg _ hall)
  · intro idxs hpick
    obtain ⟨key, hkey, hq⟩ := pick_candidate_shape cfg _ idxs hpick
    have hnd : idxs.Nodup := by
      rw [hkey]
      exact group_idxs_nodup _ key
    have hb : ∀ i ∈ idxs, i < (l.take (min l.length cfg.top_k_for_funnel)).length := by
      intro i hi
      rw [hkey] at hi
      exact group_idxs_bound _ key i hi
    have hhl : (l.take (min l.length cfg.top_k_for_funnel)).length
        = min l.length cfg.top_k_for_funnel := by
      rw [List.length_take]
      omega
    simp only [apply_funneling_if_needed]
    split_ifs with h1 h2
    · exact ⟨rfl, fun i _ => rfl, List.Perm.refl _⟩
    · exact ⟨rfl, fun i _ => rfl, List.Perm.refl _⟩
    · rw [hpick]
      have hlb : (idxs.filterMap
            (fun i => (l.take (min l.length cfg.top_k_for_funnel))[i]?)).length
          = idxs.length := filterMap_getElem_length _ idxs hb
      have hre : (reorder_equal_group cfg sqrtf (idxs.filterMap
            (fun i => (l.take (min l.length cfg.top_k_for_funnel))[i]?))).Perm
          (idxs.filterMap (fun i => (l.take (min l.length cfg.top_k_for_funnel))[i]?)) :=
        reorder_equal_group_perm cfg sqrtf _
      have hrel : (reorder_equal_group cfg sqrtf (idxs.filterMap
            (fun i => (l.take (min l.length cfg.top_k_for_funnel))[i]?))).length
          = idxs.length := hre.length_eq.trans hlb
      refine ⟨?_, ?_, ?_⟩
      · rw [List.length_append, splice_at_length, hhl, List.length_drop]
        omega
      · intro i hi
        by_cases hih : i < (l.take (min l.length cfg.top_k_for_funnel)).length
        · rw [List.getElem?_append, splice_at_length,
            if_pos hih, splice_at_untouched _ _ _ i hi, List.getElem?_take]
          rw [hhl] at hih
          rw [if_pos hih]
        · push_neg at hih
          rw [List.getElem?_append, splice_at_length, if_neg (not_lt.mpr hih),
            List.getElem?_drop]
          have hx : min l.length cfg.top_k_for_funnel +
              (i - (l.take (min l.length cfg.top_k_for_funnel)).length) = i := by
            rw [hhl]
            rw [hhl] at hih
            omega
          rw [hx]
      · have hout : idxs.filterMap (fun i =>
            (splice_at (l.take (min l.length cfg.top_k_for_funnel)) idxs
                (reorder_equal_group cfg sqrtf (idxs.filterMap
                  (fun i => (l.take (min l.length cfg.top_k_for_funnel))[i]?))) ++
              l.drop (min l.length cfg.top_k_for_funnel))[i]?) =
            reorder_equal_group cfg sqrtf (idxs.filterMap
              (fun i => (l.take (min l.length cfg.top_k_for_funnel))[i]?)) := by
          refine filterMap_of_pairs idxs _ _ hrel.symm ?_
          intro p hp
          have hpi : p.1 ∈ idxs := (List.of_mem_zip hp).1
          have hpb : p.1 < (l.take (min l.length cfg.top_k_for_funnel)).length :=
            hb p.1 hpi
          rw [List.getElem?_append, splice_at_length, if_pos hpb]
          exact splice_at_get _ idxs _ hnd hrel hb p hp
        have hin : idxs.filterMap (fun i => l[i]?) =
            idxs.filterMap (fun i => (l.take (min l.length cfg.top_k_for_funnel))[i]?) := by
          refine List.filterMap_congr ?_
          intro i hi
          rw [List.getElem?_take]
          have := hb i hi
          rw [hhl] at this
          rw [if_pos this]
        rw [hout, hin]
        exact hre

theorem c7_funnel_frame_w :
    pick_candidate cfgFunnel ([scF1, scF2, scF3].take
        (min [scF1, scF2, scF3].length cfgFunnel.top_k_for_funnel)) = some [0, 1] ∧
    (2 : ℕ) ∉ [0, 1] ∧
    (apply_funneling_if_needed cfgFunnel sqrt0 [scF1, scF2, scF3])[2]? =
      [scF1, scF2, scF3][2]? := by
  have hpick : pick_candidate cfgFunnel ([scF1, scF2, scF3].take
      (min [scF1, scF2, scF3].length cfgFunnel.top_k_for_funnel)) = some [0, 1] := by
    decide
  exact ⟨hpick, by decide,
    ((c7_funnel_frame cfgFunnel sqrt0 [scF1, scF2, scF3]).2.2 [0, 1] hpick).2.1 2 (by decide)⟩
